import Mathlib

/-!
Verification of the observability-URL resolver
(`packages/openchoreo-client-node/src/observability-url-resolver.ts`).

The resolver walks a Kubernetes-style reference chain
(Environment → DataPlane/ClusterDataPlane → ObservabilityPlane/ClusterObservabilityPlane,
or Project → BuildPlane/ClusterBuildPlane → ObservabilityPlane/ClusterObservabilityPlane),
caching successful results in a TTL-bounded in-memory map.

The embedding below models the CRUD API collaborator as a `World` of total
lookup functions returning either a value or an HTTP status, instruments each
resolution with the ordered list of lookup calls it performs, and threads the
cache state explicitly.
-/

namespace OCR

/-- A `{kind, name}` reference object, as read from `spec.dataPlaneRef`,
`spec.buildPlaneRef` or `spec.observabilityPlaneRef`. -/
structure PlaneRef where
  kind : String
  name : String
deriving DecidableEq, Repr

/-- An Environment resource: the resolver only reads `spec.dataPlaneRef`. -/
structure Environment where
  dataPlaneRef : Option PlaneRef
deriving DecidableEq, Repr

/-- A Project resource: the resolver only reads `spec.buildPlaneRef`. -/
structure Project where
  buildPlaneRef : Option PlaneRef
deriving DecidableEq, Repr

/-- A DataPlane / ClusterDataPlane / BuildPlane / ClusterBuildPlane resource:
the resolver only reads `spec.observabilityPlaneRef`. -/
structure Plane where
  observabilityPlaneRef : Option PlaneRef
deriving DecidableEq, Repr

/-- An ObservabilityPlane / ClusterObservabilityPlane resource:
the resolver reads `spec.observerURL` and `spec.rcaAgentURL`. -/
structure ObsPlane where
  observerURL : Option String
  rcaAgentURL : Option String
deriving DecidableEq, Repr

/-- The result type `ObservabilityUrlsResult` of the TypeScript source. -/
structure ObservabilityUrlsResult where
  observerUrl : Option String
  rcaAgentUrl : Option String
deriving DecidableEq, Repr

/-- Outcome of one `client.GET` call: either the decoded resource, or a
failure carrying the HTTP response status (the `error || !resp.ok` branch). -/
inductive LookupOutcome (α : Type) where
  | ok (value : α)
  | err (status : Nat)
deriving DecidableEq, Repr

/-- The backing resource set reachable through the CRUD API client.  Each field
is one GET route used by the resolver; namespace-scoped routes take the
namespace first. -/
structure World where
  environments : String → String → LookupOutcome Environment
  projects : String → String → LookupOutcome Project
  dataplanes : String → String → LookupOutcome Plane
  clusterdataplanes : String → LookupOutcome Plane
  buildplanes : String → String → LookupOutcome Plane
  clusterbuildplanes : String → LookupOutcome Plane
  observabilityplanes : String → String → LookupOutcome ObsPlane
  clusterobservabilityplanes : String → LookupOutcome ObsPlane

/-- One lookup call against the resource-lookup collaborator, recorded in
the order the resolver performs them. -/
inductive LookupCall where
  | getEnvironment (ns name : String)
  | getProject (ns name : String)
  | getDataPlane (ns name : String)
  | getClusterDataPlane (name : String)
  | getBuildPlane (ns name : String)
  | getClusterBuildPlane (name : String)
  | getObservabilityPlane (ns name : String)
  | getClusterObservabilityPlane (name : String)
deriving DecidableEq, Repr

/-- The distinct `throw new Error(...)` sites of the resolver. -/
inductive ResolveError where
  | environmentLookupFailed (name : String) (status : Nat)
  | dataPlaneLookupFailed (name : String) (status : Nat)
  | clusterDataPlaneLookupFailed (name : String) (status : Nat)
  | unsupportedDataPlaneRefKind (kind : String)
  | projectLookupFailed (name : String) (status : Nat)
  | buildPlaneLookupFailed (name : String) (status : Nat)
  | clusterBuildPlaneLookupFailed (name : String) (status : Nat)
  | unsupportedBuildPlaneRefKind (kind : String)
  | observabilityPlaneLookupFailed (name : String) (status : Nat)
  | clusterObservabilityPlaneLookupFailed (name : String) (status : Nat)
  | unsupportedObservabilityPlaneRefKind (kind : String)
deriving DecidableEq, Repr

/-- `const DEFAULT_PLANE_NAME = 'default'`. -/
def DEFAULT_PLANE_NAME : String := "default"

/-- `const DEFAULT_CACHE_TTL_MS = 5 * 60 * 1000`. -/
def DEFAULT_CACHE_TTL_MS : Nat := 5 * 60 * 1000

/-- One entry of the resolver's private cache map. -/
structure CacheEntry where
  result : ObservabilityUrlsResult
  expiresAt : Nat
deriving DecidableEq, Repr

/-- The cache map, modelled extensionally: each key holds at most one entry. -/
def Cache : Type := String → Option CacheEntry

/-- The empty cache (the state right after construction). -/
def emptyCache : Cache := fun _ => none

/-- `getFromCache`: returns the entry's result only if `now < expiresAt`
(no mutation on a hit); an existing expired entry is deleted; a missing key
is a miss with no mutation.  Returns the possibly-updated cache alongside. -/
def getFromCache (cache : Cache) (now : Nat) (key : String) :
    Option ObservabilityUrlsResult × Cache :=
  match cache key with
  | some entry =>
    if now < entry.expiresAt then (some entry.result, cache)
    else (none, fun k => if k = key then none else cache k)
  | none => (none, cache)

/-- `putInCache`: unconditional overwrite with `expiresAt = now + ttl`. -/
def putInCache (cache : Cache) (ttl now : Nat) (key : String)
    (result : ObservabilityUrlsResult) : Cache :=
  fun k => if k = key then some ⟨result, now + ttl⟩ else cache k

/-- The composite cache key for environment-based resolution. -/
def envCacheKey (namespaceName envName : String) : String :=
  "env:" ++ namespaceName ++ "/" ++ envName

/-- The composite cache key for build-based resolution. -/
def buildCacheKey (namespaceName projectName : String) : String :=
  "build:" ++ namespaceName ++ "/" ++ projectName

/-- Result of one resolution call: the returned value or thrown error, the
cache state afterwards, and the ordered lookup calls performed. -/
structure ResolveOut where
  result : Except ResolveError ObservabilityUrlsResult
  cache : Cache
  calls : List LookupCall

/-- `getObservabilityPlaneUrls`: dispatch on the terminal reference's kind.
`ObservabilityPlane` is looked up in the caller's namespace,
`ClusterObservabilityPlane` cluster-wide; any other kind throws. -/
def getObservabilityPlaneUrls (w : World) (namespaceName : String)
    (ref : PlaneRef) :
    Except ResolveError ObservabilityUrlsResult × List LookupCall :=
  if ref.kind = "ObservabilityPlane" then
    match w.observabilityplanes namespaceName ref.name with
    | .ok op => (.ok ⟨op.observerURL, op.rcaAgentURL⟩,
        [.getObservabilityPlane namespaceName ref.name])
    | .err s => (.error (.observabilityPlaneLookupFailed ref.name s),
        [.getObservabilityPlane namespaceName ref.name])
  else if ref.kind = "ClusterObservabilityPlane" then
    match w.clusterobservabilityplanes ref.name with
    | .ok cop => (.ok ⟨cop.observerURL, cop.rcaAgentURL⟩,
        [.getClusterObservabilityPlane ref.name])
    | .err s => (.error (.clusterObservabilityPlaneLookupFailed ref.name s),
        [.getClusterObservabilityPlane ref.name])
  else
    (.error (.unsupportedObservabilityPlaneRefKind ref.kind), [])

/-- Step 3 shared by all paths: fetch the terminal observability plane and,
on success only, store the result in the cache under `cacheKey`. -/
def finishWithObsPlane (w : World) (ttl : Nat) (cache1 : Cache) (now : Nat)
    (namespaceName cacheKey : String) (obsRef : PlaneRef)
    (callsSoFar : List LookupCall) : ResolveOut :=
  match getObservabilityPlaneUrls w namespaceName obsRef with
  | (.ok result, obsCalls) =>
    ⟨.ok result, putInCache cache1 ttl now cacheKey result,
      callsSoFar ++ obsCalls⟩
  | (.error e, obsCalls) => ⟨.error e, cache1, callsSoFar ++ obsCalls⟩

/-- Prefix already-performed lookup calls onto a delegated resolution. -/
def prependCalls (calls : List LookupCall) (out : ResolveOut) : ResolveOut :=
  ⟨out.result, out.cache, calls ++ out.calls⟩

/-- `resolveForBuildViaClusterBuildPlane`: fetch the named ClusterBuildPlane,
default an absent observability reference to
`ClusterObservabilityPlane("default")`, then finish. -/
def resolveForBuildViaClusterBuildPlane (w : World) (ttl : Nat)
    (cache1 : Cache) (now : Nat)
    (namespaceName clusterBuildPlaneName cacheKey : String) : ResolveOut :=
  match w.clusterbuildplanes clusterBuildPlaneName with
  | .err s =>
    ⟨.error (.clusterBuildPlaneLookupFailed clusterBuildPlaneName s), cache1,
      [.getClusterBuildPlane clusterBuildPlaneName]⟩
  | .ok cbp =>
    finishWithObsPlane w ttl cache1 now namespaceName cacheKey
      (cbp.observabilityPlaneRef.getD
        ⟨"ClusterObservabilityPlane", DEFAULT_PLANE_NAME⟩)
      [.getClusterBuildPlane clusterBuildPlaneName]

/-- The `!dataPlaneRef || dataPlaneRef.kind === 'DataPlane'` branch of
`resolveForEnvironment`: look up the namespace-scoped DataPlane named
`dpName` and default an absent observability reference to
`ObservabilityPlane("default")`. -/
def resolveEnvViaDataPlane (w : World) (ttl : Nat) (cache1 : Cache)
    (now : Nat) (namespaceName envName dpName : String) : ResolveOut :=
  match w.dataplanes namespaceName dpName with
  | .err s =>
    ⟨.error (.dataPlaneLookupFailed dpName s), cache1,
      [.getEnvironment namespaceName envName,
       .getDataPlane namespaceName dpName]⟩
  | .ok dp =>
    finishWithObsPlane w ttl cache1 now namespaceName
      (envCacheKey namespaceName envName)
      (dp.observabilityPlaneRef.getD ⟨"ObservabilityPlane", DEFAULT_PLANE_NAME⟩)
      [.getEnvironment namespaceName envName,
       .getDataPlane namespaceName dpName]

/-- The `dataPlaneRef.kind === 'ClusterDataPlane'` branch of
`resolveForEnvironment`: look up the ClusterDataPlane and default an absent
observability reference to `ClusterObservabilityPlane("default")`. -/
def resolveEnvViaClusterDataPlane (w : World) (ttl : Nat) (cache1 : Cache)
    (now : Nat) (namespaceName envName cdpName : String) : ResolveOut :=
  match w.clusterdataplanes cdpName with
  | .err s =>
    ⟨.error (.clusterDataPlaneLookupFailed cdpName s), cache1,
      [.getEnvironment namespaceName envName, .getClusterDataPlane cdpName]⟩
  | .ok cdp =>
    finishWithObsPlane w ttl cache1 now namespaceName
      (envCacheKey namespaceName envName)
      (cdp.observabilityPlaneRef.getD
        ⟨"ClusterObservabilityPlane", DEFAULT_PLANE_NAME⟩)
      [.getEnvironment namespaceName envName, .getClusterDataPlane cdpName]

/-- The cache-miss path of `resolveForEnvironment` (everything after the
cache check), dispatching on `spec.dataPlaneRef`. -/
def resolveForEnvironmentMiss (w : World) (ttl : Nat) (cache1 : Cache)
    (now : Nat) (namespaceName envName : String) : ResolveOut :=
  match w.environments namespaceName envName with
  | .err s =>
    ⟨.error (.environmentLookupFailed envName s), cache1,
      [.getEnvironment namespaceName envName]⟩
  | .ok env =>
    match env.dataPlaneRef with
    | none =>
      resolveEnvViaDataPlane w ttl cache1 now namespaceName envName
        DEFAULT_PLANE_NAME
    | some r =>
      if r.kind = "DataPlane" then
        resolveEnvViaDataPlane w ttl cache1 now namespaceName envName r.name
      else if r.kind = "ClusterDataPlane" then
        resolveEnvViaClusterDataPlane w ttl cache1 now namespaceName envName
          r.name
      else
        ⟨.error (.unsupportedDataPlaneRefKind r.kind), cache1,
          [.getEnvironment namespaceName envName]⟩

/-- `resolveForEnvironment`: check the cache under
`"env:" + namespace + "/" + envName`; on a hit return the cached result with
no lookups, otherwise walk the chain. -/
def resolveForEnvironment (w : World) (ttl : Nat) (cache : Cache) (now : Nat)
    (namespaceName envName : String) : ResolveOut :=
  match getFromCache cache now (envCacheKey namespaceName envName) with
  | (some result, c1) => ⟨.ok result, c1, []⟩
  | (none, c1) => resolveForEnvironmentMiss w ttl c1 now namespaceName envName

/-- The `!buildPlaneRef || buildPlaneRef.kind === 'BuildPlane'` branch of
`resolveForBuild`: look up BuildPlane `buildPlaneRef?.name ?? "default"`; on
a 404 with no explicit reference, fall back to
`resolveForBuildViaClusterBuildPlane("default")`. -/
def resolveBuildViaBuildPlane (w : World) (ttl : Nat) (cache1 : Cache)
    (now : Nat) (namespaceName projectName : String)
    (buildPlaneRef : Option PlaneRef) : ResolveOut :=
  match w.buildplanes namespaceName ((buildPlaneRef.map PlaneRef.name).getD DEFAULT_PLANE_NAME) with
  | .err s =>
    if s = 404 ∧ buildPlaneRef = none then
      prependCalls
        [.getProject namespaceName projectName,
         .getBuildPlane namespaceName
           ((buildPlaneRef.map PlaneRef.name).getD DEFAULT_PLANE_NAME)]
        (resolveForBuildViaClusterBuildPlane w ttl cache1 now namespaceName
          DEFAULT_PLANE_NAME (buildCacheKey namespaceName projectName))
    else
      ⟨.error (.buildPlaneLookupFailed
          ((buildPlaneRef.map PlaneRef.name).getD DEFAULT_PLANE_NAME) s),
        cache1,
        [.getProject namespaceName projectName,
         .getBuildPlane namespaceName
           ((buildPlaneRef.map PlaneRef.name).getD DEFAULT_PLANE_NAME)]⟩
  | .ok bp =>
    finishWithObsPlane w ttl cache1 now namespaceName
      (buildCacheKey namespaceName projectName)
      (bp.observabilityPlaneRef.getD ⟨"ObservabilityPlane", DEFAULT_PLANE_NAME⟩)
      [.getProject namespaceName projectName,
       .getBuildPlane namespaceName
         ((buildPlaneRef.map PlaneRef.name).getD DEFAULT_PLANE_NAME)]

/-- The cache-miss path of `resolveForBuild`, dispatching on
`spec.buildPlaneRef`. -/
def resolveForBuildMiss (w : World) (ttl : Nat) (cache1 : Cache) (now : Nat)
    (namespaceName projectName : String) : ResolveOut :=
  match w.projects namespaceName projectName with
  | .err s =>
    ⟨.error (.projectLookupFailed projectName s), cache1,
      [.getProject namespaceName projectName]⟩
  | .ok project =>
    match project.buildPlaneRef with
    | none =>
      resolveBuildViaBuildPlane w ttl cache1 now namespaceName projectName none
    | some r =>
      if r.kind = "BuildPlane" then
        resolveBuildViaBuildPlane w ttl cache1 now namespaceName projectName
          (some r)
      else if r.kind = "ClusterBuildPlane" then
        prependCalls [.getProject namespaceName projectName]
          (resolveForBuildViaClusterBuildPlane w ttl cache1 now namespaceName
            r.name (buildCacheKey namespaceName projectName))
      else
        ⟨.error (.unsupportedBuildPlaneRefKind r.kind), cache1,
          [.getProject namespaceName projectName]⟩

/-- `resolveForBuild`: check the cache under
`"build:" + namespace + "/" + projectName`; on a hit return the cached result
with no lookups, otherwise walk the chain. -/
def resolveForBuild (w : World) (ttl : Nat) (cache : Cache) (now : Nat)
    (namespaceName projectName : String) : ResolveOut :=
  match getFromCache cache now (buildCacheKey namespaceName projectName) with
  | (some result, c1) => ⟨.ok result, c1, []⟩
  | (none, c1) => resolveForBuildMiss w ttl c1 now namespaceName projectName

/-- Outcome dichotomy for a cache-miss resolution starting from cache `c1`:
success stores the returned value under `key`; failure leaves `c1` as is. -/
def MissShape (c1 : Cache) (ttl now : Nat) (key : String)
    (out : ResolveOut) : Prop :=
  (∃ v, out.result = .ok v ∧ out.cache = putInCache c1 ttl now key v) ∨
  (∃ e, out.result = .error e ∧ out.cache = c1)

/-! ### Concrete resource sets and caches used in counterexamples and
concrete instantiations -/

/-- A resource set in which every lookup fails with HTTP 500. -/
def wFailEnv : World where
  environments := fun _ _ => .err 500
  projects := fun _ _ => .err 500
  dataplanes := fun _ _ => .err 500
  clusterdataplanes := fun _ => .err 500
  buildplanes := fun _ _ => .err 500
  clusterbuildplanes := fun _ => .err 500
  observabilityplanes := fun _ _ => .err 500
  clusterobservabilityplanes := fun _ => .err 500

/-- A cache holding an entry for `env:o/dev` that expired at time 3. -/
def cacheExpired : Cache :=
  fun k => if k = envCacheKey "o" "dev" then
    some ⟨⟨some "u", none⟩, 3⟩ else none

/-- A cache holding an entry for key `k1` that expires at time 10. -/
def cacheLive : Cache :=
  fun k => if k = "k1" then some ⟨⟨some "u", none⟩, 10⟩ else none

/-- A resource set that exercises the build cluster fallback: project `shop`
in namespace `o` declares no `buildPlaneRef`, `BuildPlane("default")` is
missing (404), `ClusterBuildPlane("default")` exists with no observability
reference, and `ClusterObservabilityPlane("default")` carries a URL. -/
def wFallback : World where
  environments := fun _ _ => .err 404
  projects := fun ns p => if ns = "o" ∧ p = "shop" then .ok ⟨none⟩ else .err 404
  dataplanes := fun _ _ => .err 404
  clusterdataplanes := fun _ => .err 404
  buildplanes := fun _ _ => .err 404
  clusterbuildplanes := fun n =>
    if n = "default" then .ok ⟨none⟩ else .err 404
  observabilityplanes := fun _ _ => .err 404
  clusterobservabilityplanes := fun n =>
    if n = "default" then .ok ⟨some "u", none⟩ else .err 404

/-- A fully-populated happy-path resource set: environment `dev` and project
`shop` in namespace `o` resolve through namespace-scoped planes to
ObservabilityPlane `obs-1`. -/
def wHappy : World where
  environments := fun ns e =>
    if ns = "o" ∧ e = "dev" then .ok ⟨some ⟨"DataPlane", "primary"⟩⟩
    else .err 404
  projects := fun ns p =>
    if ns = "o" ∧ p = "shop" then .ok ⟨some ⟨"BuildPlane", "bp1"⟩⟩
    else .err 404
  dataplanes := fun ns n =>
    if ns = "o" ∧ n = "primary" then .ok ⟨some ⟨"ObservabilityPlane", "obs-1"⟩⟩
    else .err 404
  clusterdataplanes := fun _ => .err 404
  buildplanes := fun ns n =>
    if ns = "o" ∧ n = "bp1" then .ok ⟨some ⟨"ObservabilityPlane", "obs-1"⟩⟩
    else .err 404
  clusterbuildplanes := fun _ => .err 404
  observabilityplanes := fun ns n =>
    if ns = "o" ∧ n = "obs-1" then
      .ok ⟨some "https://observer.example.com", none⟩
    else .err 404
  clusterobservabilityplanes := fun _ => .err 404

/-- A resource set with out-of-table reference kinds: environment `dev`
references kind `FooPlane`; project `shop` references an existing
`ClusterBuildPlane("shared")`. -/
def wKinds : World where
  environments := fun ns e =>
    if ns = "o" ∧ e = "dev" then .ok ⟨some ⟨"FooPlane", "x"⟩⟩ else .err 404
  projects := fun ns p =>
    if ns = "o" ∧ p = "shop" then .ok ⟨some ⟨"ClusterBuildPlane", "shared"⟩⟩
    else .err 404
  dataplanes := fun _ _ => .err 404
  clusterdataplanes := fun _ => .err 404
  buildplanes := fun _ _ => .err 404
  clusterbuildplanes := fun n =>
    if n = "shared" then .ok ⟨none⟩ else .err 404
  observabilityplanes := fun _ _ => .err 404
  clusterobservabilityplanes := fun n =>
    if n = "default" then .ok ⟨none, none⟩ else .err 404

/-- A resource set whose planes declare no `observabilityPlaneRef`, so the
terminal reference must be defaulted.  Namespace `o` reaches its planes
through explicit references; namespace `n2` declares no plane references at
all, so the implicit default plane name is used as well. -/
def wDefaults : World where
  environments := fun ns e =>
    if ns = "o" ∧ e = "dev" then .ok ⟨some ⟨"DataPlane", "primary"⟩⟩
    else if ns = "n2" ∧ e = "dev2" then .ok ⟨none⟩
    else .err 404
  projects := fun ns p =>
    if ns = "o" ∧ p = "shop" then .ok ⟨some ⟨"ClusterBuildPlane", "shared"⟩⟩
    else if ns = "n2" ∧ p = "shop2" then .ok ⟨none⟩
    else .err 404
  dataplanes := fun ns n =>
    if ns = "o" ∧ n = "primary" then .ok ⟨none⟩
    else if ns = "n2" ∧ n = "default" then .ok ⟨none⟩
    else .err 404
  clusterdataplanes := fun _ => .err 404
  buildplanes := fun ns n =>
    if ns = "n2" ∧ n = "default" then .ok ⟨none⟩ else .err 404
  clusterbuildplanes := fun n =>
    if n = "shared" then .ok ⟨none⟩ else .err 404
  observabilityplanes := fun _ _ => .err 404
  clusterobservabilityplanes := fun _ => .err 404

/-- A resource set reaching a namespace-scoped terminal plane through
cluster-scoped intermediate planes. -/
def wC9 : World where
  environments := fun ns e =>
    if ns = "o" ∧ e = "dev" then .ok ⟨some ⟨"ClusterDataPlane", "cdp"⟩⟩
    else .err 404
  projects := fun ns p =>
    if ns = "o" ∧ p = "shop" then .ok ⟨some ⟨"ClusterBuildPlane", "cbp"⟩⟩
    else .err 404
  dataplanes := fun _ _ => .err 404
  clusterdataplanes := fun n =>
    if n = "cdp" then .ok ⟨some ⟨"ObservabilityPlane", "obs"⟩⟩ else .err 404
  buildplanes := fun _ _ => .err 404
  clusterbuildplanes := fun n =>
    if n = "cbp" then .ok ⟨some ⟨"ObservabilityPlane", "obs"⟩⟩ else .err 404
  observabilityplanes := fun ns n =>
    if ns = "o" ∧ n = "obs" then .ok ⟨some "u", none⟩ else .err 404
  clusterobservabilityplanes := fun _ => .err 404

/-- A resource set with projects for exercising the build fallback trigger:
`p` has no `buildPlaneRef` and the default BuildPlane lookup fails with 500;
`q` has an explicit BuildPlane reference whose lookup fails with 404. -/
def wC1 : World where
  environments := fun _ _ => .err 500
  projects := fun ns p =>
    if ns = "o" ∧ p = "p" then .ok ⟨none⟩
    else if ns = "o" ∧ p = "q" then .ok ⟨some ⟨"BuildPlane", "bp"⟩⟩
    else if ns = "o" ∧ p = "r" then .ok ⟨some ⟨"ClusterBuildPlane", "cx"⟩⟩
    else .err 404
  dataplanes := fun _ _ => .err 404
  clusterdataplanes := fun _ => .err 404
  buildplanes := fun _ _ => .err 404
  clusterbuildplanes := fun _ => .err 404
  observabilityplanes := fun _ _ => .err 404
  clusterobservabilityplanes := fun _ => .err 404

/-- A resource set where the implicit-default BuildPlane lookup fails with
HTTP 500 (not 404). -/
def wC10 : World where
  environments := fun _ _ => .err 500
  projects := fun ns p =>
    if ns = "o" ∧ p = "p" then .ok ⟨none⟩ else .err 500
  dataplanes := fun _ _ => .err 500
  clusterdataplanes := fun _ => .err 500
  buildplanes := fun _ _ => .err 500
  clusterbuildplanes := fun _ => .err 500
  observabilityplanes := fun _ _ => .err 500
  clusterobservabilityplanes := fun _ => .err 500

/-- A resource set holding a "not configured" terminal plane: both URL
fields absent. -/
def wNotConf : World where
  environments := fun _ _ => .err 404
  projects := fun _ _ => .err 404
  dataplanes := fun _ _ => .err 404
  clusterdataplanes := fun _ => .err 404
  buildplanes := fun _ _ => .err 404
  clusterbuildplanes := fun _ => .err 404
  observabilityplanes := fun ns n =>
    if ns = "o" ∧ n = "default" then .ok ⟨none, none⟩ else .err 404
  clusterobservabilityplanes := fun n =>
    if n = "default" then .ok ⟨none, none⟩ else .err 404

/-! ### Basic cache lemmas -/

theorem putInCache_same (cache : Cache) (ttl now : Nat) (key : String)
    (v : ObservabilityUrlsResult) :
    putInCache cache ttl now key v key = some ⟨v, now + ttl⟩ := by
  simp [putInCache]

theorem putInCache_ne (cache : Cache) (ttl now : Nat) (key : String)
    (v : ObservabilityUrlsResult) (k : String) (hk : k ≠ key) :
    putInCache cache ttl now key v k = cache k := by
  simp [putInCache, hk]

theorem getFromCache_absent (cache : Cache) (now : Nat) (key : String)
    (h : cache key = none) : getFromCache cache now key = (none, cache) := by
  simp [getFromCache, h]

theorem getFromCache_live (cache : Cache) (now : Nat) (key : String)
    (e : CacheEntry) (h : cache key = some e) (hlt : now < e.expiresAt) :
    getFromCache cache now key = (some e.result, cache) := by
  simp [getFromCache, h, hlt]

theorem getFromCache_expired (cache : Cache) (now : Nat) (key : String)
    (e : CacheEntry) (h : cache key = some e) (hlt : ¬ now < e.expiresAt) :
    getFromCache cache now key =
      (none, fun k => if k = key then none else cache k) := by
  simp [getFromCache, h, hlt]

theorem getFromCache_miss_snd_key (cache : Cache) (now : Nat) (key : String)
    (h : (getFromCache cache now key).1 = none) :
    (getFromCache cache now key).2 key = none := by
  cases hc : cache key with
  | none => simp [getFromCache, hc]
  | some e =>
    by_cases hlt : now < e.expiresAt
    · exfalso; simp [getFromCache, hc, hlt] at h
    · simp [getFromCache, hc, hlt]

theorem getFromCache_snd_ne (cache : Cache) (now : Nat) (key k : String)
    (hk : k ≠ key) : (getFromCache cache now key).2 k = cache k := by
  cases hc : cache key with
  | none => simp [getFromCache, hc]
  | some e =>
    by_cases hlt : now < e.expiresAt
    · simp [getFromCache, hc, hlt]
    · simp [getFromCache, hc, hlt, hk]

theorem getFromCache_fst_some (cache : Cache) (now : Nat) (key : String)
    (r : ObservabilityUrlsResult)
    (h : (getFromCache cache now key).1 = some r) :
    ∃ e, cache key = some e ∧ now < e.expiresAt ∧ r = e.result ∧
      (getFromCache cache now key).2 = cache := by
  cases hc : cache key with
  | none => exfalso; simp [getFromCache, hc] at h
  | some e =>
    by_cases hlt : now < e.expiresAt
    · refine ⟨e, rfl, hlt, ?_, ?_⟩
      · rw [getFromCache_live cache now key e hc hlt] at h
        exact (Option.some.inj h).symm
      · rw [getFromCache_live cache now key e hc hlt]
    · exfalso
      rw [getFromCache_expired cache now key e hc hlt] at h
      simp at h

/-! ### Shape of the cache-miss paths

Every cache-miss resolution either succeeds and stores exactly its result
under its cache key, or fails and leaves the cache it was given untouched. -/

theorem finishWithObsPlane_missShape (w : World) (ttl : Nat) (c1 : Cache)
    (now : Nat) (ns key : String) (obsRef : PlaneRef)
    (calls : List LookupCall) :
    MissShape c1 ttl now key (finishWithObsPlane w ttl c1 now ns key obsRef calls) := by
  rcases hg : getObservabilityPlaneUrls w ns obsRef with ⟨r, cs⟩
  cases r with
  | ok v => exact Or.inl ⟨v, by simp [finishWithObsPlane, hg], by simp [finishWithObsPlane, hg]⟩
  | error e => exact Or.inr ⟨e, by simp [finishWithObsPlane, hg], by simp [finishWithObsPlane, hg]⟩

theorem prependCalls_missShape (c1 : Cache) (ttl now : Nat) (key : String)
    (cs : List LookupCall) (out : ResolveOut)
    (h : MissShape c1 ttl now key out) :
    MissShape c1 ttl now key (prependCalls cs out) := by
  rcases h with ⟨v, hr, hc⟩ | ⟨e, hr, hc⟩
  · exact Or.inl ⟨v, by simp [prependCalls, hr], by simp [prependCalls, hc]⟩
  · exact Or.inr ⟨e, by simp [prependCalls, hr], by simp [prependCalls, hc]⟩

theorem resolveForBuildViaClusterBuildPlane_missShape (w : World) (ttl : Nat)
    (c1 : Cache) (now : Nat) (ns n key : String) :
    MissShape c1 ttl now key
      (resolveForBuildViaClusterBuildPlane w ttl c1 now ns n key) := by
  cases hc : w.clusterbuildplanes n with
  | err s =>
    exact Or.inr ⟨.clusterBuildPlaneLookupFailed n s,
      by simp [resolveForBuildViaClusterBuildPlane, hc],
      by simp [resolveForBuildViaClusterBuildPlane, hc]⟩
  | ok cbp =>
    have h := finishWithObsPlane_missShape w ttl c1 now ns key
      (cbp.observabilityPlaneRef.getD
        ⟨"ClusterObservabilityPlane", DEFAULT_PLANE_NAME⟩)
      [.getClusterBuildPlane n]
    simpa [resolveForBuildViaClusterBuildPlane, hc] using h

theorem resolveEnvViaDataPlane_missShape (w : World) (ttl : Nat) (c1 : Cache)
    (now : Nat) (ns env dpName : String) :
    MissShape c1 ttl now (envCacheKey ns env)
      (resolveEnvViaDataPlane w ttl c1 now ns env dpName) := by
  cases hd : w.dataplanes ns dpName with
  | err s =>
    exact Or.inr ⟨.dataPlaneLookupFailed dpName s,
      by simp [resolveEnvViaDataPlane, hd],
      by simp [resolveEnvViaDataPlane, hd]⟩
  | ok dp =>
    have h := finishWithObsPlane_missShape w ttl c1 now ns (envCacheKey ns env)
      (dp.observabilityPlaneRef.getD ⟨"ObservabilityPlane", DEFAULT_PLANE_NAME⟩)
      [.getEnvironment ns env, .getDataPlane ns dpName]
    simpa [resolveEnvViaDataPlane, hd] using h

theorem resolveEnvViaClusterDataPlane_missShape (w : World) (ttl : Nat)
    (c1 : Cache) (now : Nat) (ns env cdpName : String) :
    MissShape c1 ttl now (envCacheKey ns env)
      (resolveEnvViaClusterDataPlane w ttl c1 now ns env cdpName) := by
  cases hd : w.clusterdataplanes cdpName with
  | err s =>
    exact Or.inr ⟨.clusterDataPlaneLookupFailed cdpName s,
      by simp [resolveEnvViaClusterDataPlane, hd],
      by simp [resolveEnvViaClusterDataPlane, hd]⟩
  | ok cdp =>
    have h := finishWithObsPlane_missShape w ttl c1 now ns (envCacheKey ns env)
      (cdp.observabilityPlaneRef.getD
        ⟨"ClusterObservabilityPlane", DEFAULT_PLANE_NAME⟩)
      [.getEnvironment ns env, .getClusterDataPlane cdpName]
    simpa [resolveEnvViaClusterDataPlane, hd] using h

theorem resolveBuildViaBuildPlane_missShape (w : World) (ttl : Nat)
    (c1 : Cache) (now : Nat) (ns proj : String) (ref : Option PlaneRef) :
    MissShape c1 ttl now (buildCacheKey ns proj)
      (resolveBuildViaBuildPlane w ttl c1 now ns proj ref) := by
  cases ref with
  | some r =>
    cases hb : w.buildplanes ns r.name with
    | err s =>
      exact Or.inr ⟨.buildPlaneLookupFailed r.name s,
        by simp [resolveBuildViaBuildPlane, hb],
        by simp [resolveBuildViaBuildPlane, hb]⟩
    | ok bp =>
      have h := finishWithObsPlane_missShape w ttl c1 now ns (buildCacheKey ns proj)
        (bp.observabilityPlaneRef.getD ⟨"ObservabilityPlane", DEFAULT_PLANE_NAME⟩)
        [.getProject ns proj, .getBuildPlane ns r.name]
      simpa [resolveBuildViaBuildPlane, hb] using h
  | none =>
    cases hb : w.buildplanes ns DEFAULT_PLANE_NAME with
    | err s =>
      by_cases hs : s = 404
      · have h := resolveForBuildViaClusterBuildPlane_missShape w ttl c1 now ns
          DEFAULT_PLANE_NAME (buildCacheKey ns proj)
        have h2 := prependCalls_missShape c1 ttl now (buildCacheKey ns proj)
          [.getProject ns proj, .getBuildPlane ns DEFAULT_PLANE_NAME] _ h
        simpa [resolveBuildViaBuildPlane, hb, hs] using h2
      · exact Or.inr ⟨.buildPlaneLookupFailed DEFAULT_PLANE_NAME s,
          by simp [resolveBuildViaBuildPlane, hb, hs],
          by simp [resolveBuildViaBuildPlane, hb, hs]⟩
    | ok bp =>
      have h := finishWithObsPlane_missShape w ttl c1 now ns (buildCacheKey ns proj)
        (bp.observabilityPlaneRef.getD ⟨"ObservabilityPlane", DEFAULT_PLANE_NAME⟩)
        [.getProject ns proj, .getBuildPlane ns DEFAULT_PLANE_NAME]
      simpa [resolveBuildViaBuildPlane, hb] using h

theorem resolveForEnvironmentMiss_missShape (w : World) (ttl : Nat)
    (c1 : Cache) (now : Nat) (ns env : String) :
    MissShape c1 ttl now (envCacheKey ns env)
      (resolveForEnvironmentMiss w ttl c1 now ns env) := by
  cases he : w.environments ns env with
  | err s =>
    exact Or.inr ⟨.environmentLookupFailed env s,
      by simp [resolveForEnvironmentMiss, he],
      by simp [resolveForEnvironmentMiss, he]⟩
  | ok e =>
    cases hr : e.dataPlaneRef with
    | none =>
      have h := resolveEnvViaDataPlane_missShape w ttl c1 now ns env DEFAULT_PLANE_NAME
      simpa [resolveForEnvironmentMiss, he, hr] using h
    | some r =>
      by_cases h1 : r.kind = "DataPlane"
      · have h := resolveEnvViaDataPlane_missShape w ttl c1 now ns env r.name
        simpa [resolveForEnvironmentMiss, he, hr, h1] using h
      · by_cases h2 : r.kind = "ClusterDataPlane"
        · have h := resolveEnvViaClusterDataPlane_missShape w ttl c1 now ns env r.name
          simpa [resolveForEnvironmentMiss, he, hr, h1, h2] using h
        · exact Or.inr ⟨.unsupportedDataPlaneRefKind r.kind,
            by simp [resolveForEnvironmentMiss, he, hr, h1, h2],
            by simp [resolveForEnvironmentMiss, he, hr, h1, h2]⟩

theorem resolveForBuildMiss_missShape (w : World) (ttl : Nat) (c1 : Cache)
    (now : Nat) (ns proj : String) :
    MissShape c1 ttl now (buildCacheKey ns proj)
      (resolveForBuildMiss w ttl c1 now ns proj) := by
  cases hp : w.projects ns proj with
  | err s =>
    exact Or.inr ⟨.projectLookupFailed proj s,
      by simp [resolveForBuildMiss, hp],
      by simp [resolveForBuildMiss, hp]⟩
  | ok p =>
    cases hr : p.buildPlaneRef with
    | none =>
      have h := resolveBuildViaBuildPlane_missShape w ttl c1 now ns proj none
      simpa [resolveForBuildMiss, hp, hr] using h
    | some r =>
      by_cases h1 : r.kind = "BuildPlane"
      · have h := resolveBuildViaBuildPlane_missShape w ttl c1 now ns proj (some r)
        simpa [resolveForBuildMiss, hp, hr, h1] using h
      · by_cases h2 : r.kind = "ClusterBuildPlane"
        · have h := prependCalls_missShape c1 ttl now (buildCacheKey ns proj)
            [.getProject ns proj] _
            (resolveForBuildViaClusterBuildPlane_missShape w ttl c1 now ns r.name
              (buildCacheKey ns proj))
          simpa [resolveForBuildMiss, hp, hr, h1, h2] using h
        · exact Or.inr ⟨.unsupportedBuildPlaneRefKind r.kind,
            by simp [resolveForBuildMiss, hp, hr, h1, h2],
            by simp [resolveForBuildMiss, hp, hr, h1, h2]⟩

/-! ### Shape of the instrumented lookup-call lists -/

theorem getObservabilityPlaneUrls_calls_len (w : World) (ns : String)
    (ref : PlaneRef) : (getObservabilityPlaneUrls w ns ref).2.length ≤ 1 := by
  by_cases h1 : ref.kind = "ObservabilityPlane"
  · cases ho : w.observabilityplanes ns ref.name <;>
      simp [getObservabilityPlaneUrls, h1, ho]
  · by_cases h2 : ref.kind = "ClusterObservabilityPlane"
    · cases ho : w.clusterobservabilityplanes ref.name <;>
        simp [getObservabilityPlaneUrls, h1, h2, ho]
    · simp [getObservabilityPlaneUrls, h1, h2]

theorem finishWithObsPlane_calls (w : World) (ttl : Nat) (c1 : Cache)
    (now : Nat) (ns key : String) (obsRef : PlaneRef)
    (calls : List LookupCall) :
    (finishWithObsPlane w ttl c1 now ns key obsRef calls).calls
      = calls ++ (getObservabilityPlaneUrls w ns obsRef).2 := by
  rcases hg : getObservabilityPlaneUrls w ns obsRef with ⟨r, cs⟩
  cases r <;> simp [finishWithObsPlane, hg]

theorem resolveForBuildViaClusterBuildPlane_calls (w : World) (ttl : Nat)
    (c1 : Cache) (now : Nat) (ns n key : String) :
    ∃ tail,
      (resolveForBuildViaClusterBuildPlane w ttl c1 now ns n key).calls
        = .getClusterBuildPlane n :: tail ∧ tail.length ≤ 1 := by
  cases hc : w.clusterbuildplanes n with
  | err s => exact ⟨[], by simp [resolveForBuildViaClusterBuildPlane, hc], by simp⟩
  | ok cbp =>
    refine ⟨(getObservabilityPlaneUrls w ns
        (cbp.observabilityPlaneRef.getD
          ⟨"ClusterObservabilityPlane", DEFAULT_PLANE_NAME⟩)).2, ?_, ?_⟩
    · simp [resolveForBuildViaClusterBuildPlane, hc, finishWithObsPlane_calls]
    · exact getObservabilityPlaneUrls_calls_len w ns _

theorem resolveEnvViaDataPlane_calls (w : World) (ttl : Nat) (c1 : Cache)
    (now : Nat) (ns env dpName : String) :
    ∃ tail,
      (resolveEnvViaDataPlane w ttl c1 now ns env dpName).calls
        = .getEnvironment ns env :: .getDataPlane ns dpName :: tail ∧
      tail.length ≤ 1 := by
  cases hd : w.dataplanes ns dpName with
  | err s => exact ⟨[], by simp [resolveEnvViaDataPlane, hd], by simp⟩
  | ok dp =>
    refine ⟨(getObservabilityPlaneUrls w ns
        (dp.observabilityPlaneRef.getD
          ⟨"ObservabilityPlane", DEFAULT_PLANE_NAME⟩)).2, ?_, ?_⟩
    · simp [resolveEnvViaDataPlane, hd, finishWithObsPlane_calls]
    · exact getObservabilityPlaneUrls_calls_len w ns _

theorem resolveEnvViaClusterDataPlane_calls (w : World) (ttl : Nat)
    (c1 : Cache) (now : Nat) (ns env cdpName : String) :
    ∃ tail,
      (resolveEnvViaClusterDataPlane w ttl c1 now ns env cdpName).calls
        = .getEnvironment ns env :: .getClusterDataPlane cdpName :: tail ∧
      tail.length ≤ 1 := by
  cases hd : w.clusterdataplanes cdpName with
  | err s => exact ⟨[], by simp [resolveEnvViaClusterDataPlane, hd], by simp⟩
  | ok cdp =>
    refine ⟨(getObservabilityPlaneUrls w ns
        (cdp.observabilityPlaneRef.getD
          ⟨"ClusterObservabilityPlane", DEFAULT_PLANE_NAME⟩)).2, ?_, ?_⟩
    · simp [resolveEnvViaClusterDataPlane, hd, finishWithObsPlane_calls]
    · exact getObservabilityPlaneUrls_calls_len w ns _

theorem resolveForEnvironmentMiss_calls (w : World) (ttl : Nat) (c1 : Cache)
    (now : Nat) (ns env : String) :
    ∃ tail,
      (resolveForEnvironmentMiss w ttl c1 now ns env).calls
        = .getEnvironment ns env :: tail ∧ tail.length ≤ 2 := by
  cases he : w.environments ns env with
  | err s => exact ⟨[], by simp [resolveForEnvironmentMiss, he], by simp⟩
  | ok e =>
    cases hr : e.dataPlaneRef with
    | none =>
      obtain ⟨tail, ht, hl⟩ :=
        resolveEnvViaDataPlane_calls w ttl c1 now ns env DEFAULT_PLANE_NAME
      exact ⟨.getDataPlane ns DEFAULT_PLANE_NAME :: tail,
        by simp [resolveForEnvironmentMiss, he, hr, ht], by simp; omega⟩
    | some r =>
      by_cases h1 : r.kind = "DataPlane"
      · obtain ⟨tail, ht, hl⟩ :=
          resolveEnvViaDataPlane_calls w ttl c1 now ns env r.name
        exact ⟨.getDataPlane ns r.name :: tail,
          by simp [resolveForEnvironmentMiss, he, hr, h1, ht], by simp; omega⟩
      · by_cases h2 : r.kind = "ClusterDataPlane"
        · obtain ⟨tail, ht, hl⟩ :=
            resolveEnvViaClusterDataPlane_calls w ttl c1 now ns env r.name
          exact ⟨.getClusterDataPlane r.name :: tail,
            by simp [resolveForEnvironmentMiss, he, hr, h1, h2, ht],
            by simp; omega⟩
        · exact ⟨[], by simp [resolveForEnvironmentMiss, he, hr, h1, h2],
            by simp⟩

theorem resolveBuildViaBuildPlane_calls (w : World) (ttl : Nat) (c1 : Cache)
    (now : Nat) (ns proj : String) (ref : Option PlaneRef) :
    ∃ tail,
      (resolveBuildViaBuildPlane w ttl c1 now ns proj ref).calls
        = .getProject ns proj ::
          .getBuildPlane ns ((ref.map PlaneRef.name).getD DEFAULT_PLANE_NAME)
            :: tail ∧
      tail.length ≤ 2 := by
  cases ref with
  | some r =>
    cases hb : w.buildplanes ns r.name with
    | err s => exact ⟨[], by simp [resolveBuildViaBuildPlane, hb], by simp⟩
    | ok bp =>
      refine ⟨(getObservabilityPlaneUrls w ns
          (bp.observabilityPlaneRef.getD
            ⟨"ObservabilityPlane", DEFAULT_PLANE_NAME⟩)).2, ?_, ?_⟩
      · simp [resolveBuildViaBuildPlane, hb, finishWithObsPlane_calls]
      · have := getObservabilityPlaneUrls_calls_len w ns
          (bp.observabilityPlaneRef.getD
            ⟨"ObservabilityPlane", DEFAULT_PLANE_NAME⟩)
        omega
  | none =>
    cases hb : w.buildplanes ns DEFAULT_PLANE_NAME with
    | err s =>
      by_cases hs : s = 404
      · obtain ⟨tail, ht, hl⟩ := resolveForBuildViaClusterBuildPlane_calls
          w ttl c1 now ns DEFAULT_PLANE_NAME (buildCacheKey ns proj)
        exact ⟨.getClusterBuildPlane DEFAULT_PLANE_NAME :: tail,
          by simp [resolveBuildViaBuildPlane, hb, hs, prependCalls, ht],
          by simp; omega⟩
      · exact ⟨[], by simp [resolveBuildViaBuildPlane, hb, hs], by simp⟩
    | ok bp =>
      refine ⟨(getObservabilityPlaneUrls w ns
          (bp.observabilityPlaneRef.getD
            ⟨"ObservabilityPlane", DEFAULT_PLANE_NAME⟩)).2, ?_, ?_⟩
      · simp [resolveBuildViaBuildPlane, hb, finishWithObsPlane_calls]
      · have := getObservabilityPlaneUrls_calls_len w ns
          (bp.observabilityPlaneRef.getD
            ⟨"ObservabilityPlane", DEFAULT_PLANE_NAME⟩)
        omega

theorem resolveForBuildMiss_calls (w : World) (ttl : Nat) (c1 : Cache)
    (now : Nat) (ns proj : String) :
    ∃ tail,
      (resolveForBuildMiss w ttl c1 now ns proj).calls
        = .getProject ns proj :: tail ∧ tail.length ≤ 3 := by
  cases hp : w.projects ns proj with
  | err s => exact ⟨[], by simp [resolveForBuildMiss, hp], by simp⟩
  | ok p =>
    cases hr : p.buildPlaneRef with
    | none =>
      obtain ⟨tail, ht, hl⟩ :=
        resolveBuildViaBuildPlane_calls w ttl c1 now ns proj none
      exact ⟨.getBuildPlane ns DEFAULT_PLANE_NAME :: tail,
        by simpa [resolveForBuildMiss, hp, hr] using ht, by simp; omega⟩
    | some r =>
      by_cases h1 : r.kind = "BuildPlane"
      · obtain ⟨tail, ht, hl⟩ :=
          resolveBuildViaBuildPlane_calls w ttl c1 now ns proj (some r)
        exact ⟨.getBuildPlane ns r.name :: tail,
          by simpa [resolveForBuildMiss, hp, hr, h1] using ht, by simp; omega⟩
      · by_cases h2 : r.kind = "ClusterBuildPlane"
        · obtain ⟨tail, ht, hl⟩ := resolveForBuildViaClusterBuildPlane_calls
            w ttl c1 now ns r.name (buildCacheKey ns proj)
          exact ⟨.getClusterBuildPlane r.name :: tail,
            by simp [resolveForBuildMiss, hp, hr, h1, h2, prependCalls, ht],
            by simp; omega⟩
        · exact ⟨[], by simp [resolveForBuildMiss, hp, hr, h1, h2], by simp⟩

/-! ### Reduction of the public operations to hit / miss paths -/

theorem resolveForEnvironment_hit (w : World) (ttl : Nat) (cache : Cache)
    (now : Nat) (ns env : String) (r : ObservabilityUrlsResult)
    (h : (getFromCache cache now (envCacheKey ns env)).1 = some r) :
    resolveForEnvironment w ttl cache now ns env
      = ⟨.ok r, (getFromCache cache now (envCacheKey ns env)).2, []⟩ := by
  have hp : getFromCache cache now (envCacheKey ns env)
      = (some r, (getFromCache cache now (envCacheKey ns env)).2) := by
    rw [← h]
  unfold resolveForEnvironment
  rw [hp]

theorem resolveForEnvironment_missPath (w : World) (ttl : Nat) (cache : Cache)
    (now : Nat) (ns env : String)
    (h : (getFromCache cache now (envCacheKey ns env)).1 = none) :
    resolveForEnvironment w ttl cache now ns env
      = resolveForEnvironmentMiss w ttl
          (getFromCache cache now (envCacheKey ns env)).2 now ns env := by
  have hp : getFromCache cache now (envCacheKey ns env)
      = (none, (getFromCache cache now (envCacheKey ns env)).2) := by
    rw [← h]
  unfold resolveForEnvironment
  rw [hp]

theorem resolveForBuild_hit (w : World) (ttl : Nat) (cache : Cache)
    (now : Nat) (ns proj : String) (r : ObservabilityUrlsResult)
    (h : (getFromCache cache now (buildCacheKey ns proj)).1 = some r) :
    resolveForBuild w ttl cache now ns proj
      = ⟨.ok r, (getFromCache cache now (buildCacheKey ns proj)).2, []⟩ := by
  have hp : getFromCache cache now (buildCacheKey ns proj)
      = (some r, (getFromCache cache now (buildCacheKey ns proj)).2) := by
    rw [← h]
  unfold resolveForBuild
  rw [hp]

theorem resolveForBuild_missPath (w : World) (ttl : Nat) (cache : Cache)
    (now : Nat) (ns proj : String)
    (h : (getFromCache cache now (buildCacheKey ns proj)).1 = none) :
    resolveForBuild w ttl cache now ns proj
      = resolveForBuildMiss w ttl
          (getFromCache cache now (buildCacheKey ns proj)).2 now ns proj := by
  have hp : getFromCache cache now (buildCacheKey ns proj)
      = (none, (getFromCache cache now (buildCacheKey ns proj)).2) := by
    rw [← h]
  unfold resolveForBuild
  rw [hp]

/-! ### Terminal-hop dispatch lemmas -/

theorem getObservabilityPlaneUrls_calls_of_nsKind (w : World) (ns : String)
    (ref : PlaneRef) (h : ref.kind = "ObservabilityPlane") :
    (getObservabilityPlaneUrls w ns ref).2
      = [.getObservabilityPlane ns ref.name] := by
  cases ho : w.observabilityplanes ns ref.name <;>
    simp [getObservabilityPlaneUrls, h, ho]

theorem getObservabilityPlaneUrls_calls_of_clusterKind (w : World)
    (ns : String) (ref : PlaneRef) (h : ref.kind = "ClusterObservabilityPlane") :
    (getObservabilityPlaneUrls w ns ref).2
      = [.getClusterObservabilityPlane ref.name] := by
  cases ho : w.clusterobservabilityplanes ref.name <;>
    simp [getObservabilityPlaneUrls, h, ho]

theorem getObservabilityPlaneUrls_unsupported (w : World) (ns : String)
    (ref : PlaneRef) (h1 : ref.kind ≠ "ObservabilityPlane")
    (h2 : ref.kind ≠ "ClusterObservabilityPlane") :
    getObservabilityPlaneUrls w ns ref
      = (.error (.unsupportedObservabilityPlaneRefKind ref.kind), []) := by
  simp [getObservabilityPlaneUrls, h1, h2]

theorem getObservabilityPlaneUrls_calls_cases (w : World) (ns : String)
    (ref : PlaneRef) :
    (getObservabilityPlaneUrls w ns ref).2
        = [.getObservabilityPlane ns ref.name] ∨
    (getObservabilityPlaneUrls w ns ref).2
        = [.getClusterObservabilityPlane ref.name] ∨
    (getObservabilityPlaneUrls w ns ref).2 = [] := by
  by_cases h1 : ref.kind = "ObservabilityPlane"
  · exact Or.inl (getObservabilityPlaneUrls_calls_of_nsKind w ns ref h1)
  · by_cases h2 : ref.kind = "ClusterObservabilityPlane"
    · exact Or.inr (Or.inl (getObservabilityPlaneUrls_calls_of_clusterKind w ns ref h2))
    · exact Or.inr (Or.inr (by
        rw [getObservabilityPlaneUrls_unsupported w ns ref h1 h2]))

theorem resolveForEnvironment_hit_components (w : World) (ttl : Nat)
    (cache : Cache) (now : Nat) (ns env : String)
    (r : ObservabilityUrlsResult)
    (h : (getFromCache cache now (envCacheKey ns env)).1 = some r) :
    (resolveForEnvironment w ttl cache now ns env).result = .ok r ∧
    (resolveForEnvironment w ttl cache now ns env).cache
      = (getFromCache cache now (envCacheKey ns env)).2 ∧
    (resolveForEnvironment w ttl cache now ns env).calls = [] := by
  rw [resolveForEnvironment_hit w ttl cache now ns env r h]
  exact ⟨rfl, rfl, rfl⟩

theorem resolveForEnvironment_miss_components (w : World) (ttl : Nat)
    (cache : Cache) (now : Nat) (ns env : String)
    (h : (getFromCache cache now (envCacheKey ns env)).1 = none) :
    (resolveForEnvironment w ttl cache now ns env).result
      = (resolveForEnvironmentMiss w ttl
          (getFromCache cache now (envCacheKey ns env)).2 now ns env).result ∧
    (resolveForEnvironment w ttl cache now ns env).cache
      = (resolveForEnvironmentMiss w ttl
          (getFromCache cache now (envCacheKey ns env)).2 now ns env).cache ∧
    (resolveForEnvironment w ttl cache now ns env).calls
      = (resolveForEnvironmentMiss w ttl
          (getFromCache cache now (envCacheKey ns env)).2 now ns env).calls := by
  rw [resolveForEnvironment_missPath w ttl cache now ns env h]
  exact ⟨rfl, rfl, rfl⟩

theorem resolveForBuild_hit_components (w : World) (ttl : Nat)
    (cache : Cache) (now : Nat) (ns proj : String)
    (r : ObservabilityUrlsResult)
    (h : (getFromCache cache now (buildCacheKey ns proj)).1 = some r) :
    (resolveForBuild w ttl cache now ns proj).result = .ok r ∧
    (resolveForBuild w ttl cache now ns proj).cache
      = (getFromCache cache now (buildCacheKey ns proj)).2 ∧
    (resolveForBuild w ttl cache now ns proj).calls = [] := by
  rw [resolveForBuild_hit w ttl cache now ns proj r h]
  exact ⟨rfl, rfl, rfl⟩

theorem resolveForBuild_miss_components (w : World) (ttl : Nat)
    (cache : Cache) (now : Nat) (ns proj : String)
    (h : (getFromCache cache now (buildCacheKey ns proj)).1 = none) :
    (resolveForBuild w ttl cache now ns proj).result
      = (resolveForBuildMiss w ttl
          (getFromCache cache now (buildCacheKey ns proj)).2 now ns proj).result ∧
    (resolveForBuild w ttl cache now ns proj).cache
      = (resolveForBuildMiss w ttl
          (getFromCache cache now (buildCacheKey ns proj)).2 now ns proj).cache ∧
    (resolveForBuild w ttl cache now ns proj).calls
      = (resolveForBuildMiss w ttl
          (getFromCache cache now (buildCacheKey ns proj)).2 now ns proj).calls := by
  rw [resolveForBuild_missPath w ttl cache now ns proj h]
  exact ⟨rfl, rfl, rfl⟩

/-! ### Claim theorems -/

/-- Claim C6: for every key, `getFromCache` returns the stored result exactly
when `now < expiresAt`: a live entry is returned with the cache untouched; an
expired entry is evicted (that key becomes empty, all other keys untouched)
and reported as a miss; an absent key is a miss with the cache untouched; and
any returned result comes from a live entry. -/
theorem claim_C6_cache_get (cache : Cache) (now : Nat) (key : String) :
    (∀ e, cache key = some e → now < e.expiresAt →
      getFromCache cache now key = (some e.result, cache)) ∧
    (∀ e, cache key = some e → ¬ now < e.expiresAt →
      (getFromCache cache now key).1 = none ∧
      (getFromCache cache now key).2 key = none ∧
      ∀ k, k ≠ key → (getFromCache cache now key).2 k = cache k) ∧
    (∀ r, (getFromCache cache now key).1 = some r →
      ∃ e, cache key = some e ∧ now < e.expiresAt ∧ r = e.result) ∧
    (cache key = none → getFromCache cache now key = (none, cache)) := by
  refine ⟨?_, ?_, ?_, ?_⟩
  · intro e he hlt
    exact getFromCache_live cache now key e he hlt
  · intro e he hlt
    rw [getFromCache_expired cache now key e he hlt]
    refine ⟨rfl, by simp, ?_⟩
    intro k hk
    simp [hk]
  · intro r hr
    obtain ⟨e, he, hlt, hres, _⟩ := getFromCache_fst_some cache now key r hr
    exact ⟨e, he, hlt, hres⟩
  · intro h
    exact getFromCache_absent cache now key h

theorem envKindDispatchAux (w : World) (ttl : Nat) (c1 : Cache) (now : Nat)
    (ns env : String) (e : Environment) (r : PlaneRef)
    (he : w.environments ns env = .ok e) (hr : e.dataPlaneRef = some r) :
    (r.kind = "DataPlane" →
      .getDataPlane ns r.name
          ∈ (resolveForEnvironmentMiss w ttl c1 now ns env).calls ∧
      ∀ n, .getClusterDataPlane n
          ∉ (resolveForEnvironmentMiss w ttl c1 now ns env).calls) ∧
    (r.kind = "ClusterDataPlane" →
      .getClusterDataPlane r.name
          ∈ (resolveForEnvironmentMiss w ttl c1 now ns env).calls ∧
      ∀ ns' n, .getDataPlane ns' n
          ∉ (resolveForEnvironmentMiss w ttl c1 now ns env).calls) ∧
    (r.kind ≠ "DataPlane" → r.kind ≠ "ClusterDataPlane" →
      (resolveForEnvironmentMiss w ttl c1 now ns env).result
          = .error (.unsupportedDataPlaneRefKind r.kind) ∧
      (resolveForEnvironmentMiss w ttl c1 now ns env).calls
          = [.getEnvironment ns env]) := by
  refine ⟨?_, ?_, ?_⟩
  · intro h1
    have hred : resolveForEnvironmentMiss w ttl c1 now ns env
        = resolveEnvViaDataPlane w ttl c1 now ns env r.name := by
      simp [resolveForEnvironmentMiss, he, hr, h1]
    rw [hred]
    cases hd : w.dataplanes ns r.name with
    | err s =>
      refine ⟨by simp [resolveEnvViaDataPlane, hd], ?_⟩
      intro n
      simp [resolveEnvViaDataPlane, hd]
    | ok dp =>
      have hcalls : (resolveEnvViaDataPlane w ttl c1 now ns env r.name).calls
          = [LookupCall.getEnvironment ns env, .getDataPlane ns r.name]
            ++ (getObservabilityPlaneUrls w ns
              (dp.observabilityPlaneRef.getD
                ⟨"ObservabilityPlane", DEFAULT_PLANE_NAME⟩)).2 := by
        simp [resolveEnvViaDataPlane, hd, finishWithObsPlane_calls]
      refine ⟨by rw [hcalls]; simp, ?_⟩
      intro n hn
      rw [hcalls] at hn
      rcases getObservabilityPlaneUrls_calls_cases w ns
          (dp.observabilityPlaneRef.getD
            ⟨"ObservabilityPlane", DEFAULT_PLANE_NAME⟩) with hc | hc | hc <;>
        rw [hc] at hn <;> simp at hn
  · intro h1
    have hred : resolveForEnvironmentMiss w ttl c1 now ns env
        = resolveEnvViaClusterDataPlane w ttl c1 now ns env r.name := by
      simp [resolveForEnvironmentMiss, he, hr, h1]
    rw [hred]
    cases hd : w.clusterdataplanes r.name with
    | err s =>
      refine ⟨by simp [resolveEnvViaClusterDataPlane, hd], ?_⟩
      intro ns' n
      simp [resolveEnvViaClusterDataPlane, hd]
    | ok cdp =>
      have hcalls : (resolveEnvViaClusterDataPlane w ttl c1 now ns env r.name).calls
          = [LookupCall.getEnvironment ns env, .getClusterDataPlane r.name]
            ++ (getObservabilityPlaneUrls w ns
              (cdp.observabilityPlaneRef.getD
                ⟨"ClusterObservabilityPlane", DEFAULT_PLANE_NAME⟩)).2 := by
        simp [resolveEnvViaClusterDataPlane, hd, finishWithObsPlane_calls]
      refine ⟨by rw [hcalls]; simp, ?_⟩
      intro ns' n hn
      rw [hcalls] at hn
      rcases getObservabilityPlaneUrls_calls_cases w ns
          (cdp.observabilityPlaneRef.getD
            ⟨"ClusterObservabilityPlane", DEFAULT_PLANE_NAME⟩) with hc | hc | hc <;>
        rw [hc] at hn <;> simp at hn
  · intro h1 h2
    constructor <;> simp [resolveForEnvironmentMiss, he, hr, h1, h2]

theorem buildKindDispatchAux (w : World) (ttl : Nat) (c1 : Cache) (now : Nat)
    (ns proj : String) (p : Project) (r : PlaneRef)
    (hp : w.projects ns proj = .ok p) (hr : p.buildPlaneRef = some r) :
    (r.kind = "BuildPlane" →
      .getBuildPlane ns r.name
          ∈ (resolveForBuildMiss w ttl c1 now ns proj).calls ∧
      ∀ n, .getClusterBuildPlane n
          ∉ (resolveForBuildMiss w ttl c1 now ns proj).calls) ∧
    (r.kind = "ClusterBuildPlane" →
      .getClusterBuildPlane r.name
          ∈ (resolveForBuildMiss w ttl c1 now ns proj).calls ∧
      ∀ ns' n, .getBuildPlane ns' n
          ∉ (resolveForBuildMiss w ttl c1 now ns proj).calls) ∧
    (r.kind ≠ "BuildPlane" → r.kind ≠ "ClusterBuildPlane" →
      (resolveForBuildMiss w ttl c1 now ns proj).result
          = .error (.unsupportedBuildPlaneRefKind r.kind) ∧
      (resolveForBuildMiss w ttl c1 now ns proj).calls
          = [.getProject ns proj]) := by
  refine ⟨?_, ?_, ?_⟩
  · intro h1
    have hred : resolveForBuildMiss w ttl c1 now ns proj
        = resolveBuildViaBuildPlane w ttl c1 now ns proj (some r) := by
      simp [resolveForBuildMiss, hp, hr, h1]
    rw [hred]
    cases hb : w.buildplanes ns r.name with
    | err s =>
      refine ⟨by simp [resolveBuildViaBuildPlane, hb], ?_⟩
      intro n
      simp [resolveBuildViaBuildPlane, hb]
    | ok bp =>
      have hcalls : (resolveBuildViaBuildPlane w ttl c1 now ns proj (some r)).calls
          = [LookupCall.getProject ns proj, .getBuildPlane ns r.name]
            ++ (getObservabilityPlaneUrls w ns
              (bp.observabilityPlaneRef.getD
                ⟨"ObservabilityPlane", DEFAULT_PLANE_NAME⟩)).2 := by
        simp [resolveBuildViaBuildPlane, hb, finishWithObsPlane_calls]
      refine ⟨by rw [hcalls]; simp, ?_⟩
      intro n hn
      rw [hcalls] at hn
      rcases getObservabilityPlaneUrls_calls_cases w ns
          (bp.observabilityPlaneRef.getD
            ⟨"ObservabilityPlane", DEFAULT_PLANE_NAME⟩) with hc | hc | hc <;>
        rw [hc] at hn <;> simp at hn
  · intro h1
    have hred : resolveForBuildMiss w ttl c1 now ns proj
        = prependCalls [.getProject ns proj]
            (resolveForBuildViaClusterBuildPlane w ttl c1 now ns r.name
              (buildCacheKey ns proj)) := by
      simp [resolveForBuildMiss, hp, hr, h1]
    rw [hred]
    cases hb : w.clusterbuildplanes r.name with
    | err s =>
      refine ⟨by simp [prependCalls, resolveForBuildViaClusterBuildPlane, hb], ?_⟩
      intro ns' n
      simp [prependCalls, resolveForBuildViaClusterBuildPlane, hb]
    | ok cbp =>
      have hcalls : (prependCalls [.getProject ns proj]
            (resolveForBuildViaClusterBuildPlane w ttl c1 now ns r.name
              (buildCacheKey ns proj))).calls
          = [LookupCall.getProject ns proj, .getClusterBuildPlane r.name]
            ++ (getObservabilityPlaneUrls w ns
              (cbp.observabilityPlaneRef.getD
                ⟨"ClusterObservabilityPlane", DEFAULT_PLANE_NAME⟩)).2 := by
        simp [prependCalls, resolveForBuildViaClusterBuildPlane, hb,
          finishWithObsPlane_calls]
      refine ⟨by rw [hcalls]; simp, ?_⟩
      intro ns' n hn
      rw [hcalls] at hn
      rcases getObservabilityPlaneUrls_calls_cases w ns
          (cbp.observabilityPlaneRef.getD
            ⟨"ClusterObservabilityPlane", DEFAULT_PLANE_NAME⟩) with hc | hc | hc <;>
        rw [hc] at hn <;> simp at hn
  · intro h1 h2
    constructor <;> simp [resolveForBuildMiss, hp, hr, h1, h2]

/-- Claim C2: at every hop, an admissible reference kind triggers exactly the
lookup of its own scope — a cluster-scoped kind never causes a
namespace-scoped lookup and vice versa — and any other kind fails with the
unsupported-kind error of that hop, never a silent default. -/
theorem claim_C2_kind_dispatch (w : World) (ttl : Nat) (cache : Cache)
    (now : Nat) (ns env proj : String) (e : Environment) (p : Project)
    (r : PlaneRef) :
    ((getFromCache cache now (envCacheKey ns env)).1 = none →
     w.environments ns env = .ok e → e.dataPlaneRef = some r →
      ((r.kind = "DataPlane" →
        .getDataPlane ns r.name
            ∈ (resolveForEnvironment w ttl cache now ns env).calls ∧
        ∀ n, .getClusterDataPlane n
            ∉ (resolveForEnvironment w ttl cache now ns env).calls) ∧
       (r.kind = "ClusterDataPlane" →
        .getClusterDataPlane r.name
            ∈ (resolveForEnvironment w ttl cache now ns env).calls ∧
        ∀ ns' n, .getDataPlane ns' n
            ∉ (resolveForEnvironment w ttl cache now ns env).calls) ∧
       (r.kind ≠ "DataPlane" → r.kind ≠ "ClusterDataPlane" →
        (resolveForEnvironment w ttl cache now ns env).result
            = .error (.unsupportedDataPlaneRefKind r.kind) ∧
        (resolveForEnvironment w ttl cache now ns env).calls
            = [.getEnvironment ns env]))) ∧
    ((getFromCache cache now (buildCacheKey ns proj)).1 = none →
     w.projects ns proj = .ok p → p.buildPlaneRef = some r →
      ((r.kind = "BuildPlane" →
        .getBuildPlane ns r.name
            ∈ (resolveForBuild w ttl cache now ns proj).calls ∧
        ∀ n, .getClusterBuildPlane n
            ∉ (resolveForBuild w ttl cache now ns proj).calls) ∧
       (r.kind = "ClusterBuildPlane" →
        .getClusterBuildPlane r.name
            ∈ (resolveForBuild w ttl cache now ns proj).calls ∧
        ∀ ns' n, .getBuildPlane ns' n
            ∉ (resolveForBuild w ttl cache now ns proj).calls) ∧
       (r.kind ≠ "BuildPlane" → r.kind ≠ "ClusterBuildPlane" →
        (resolveForBuild w ttl cache now ns proj).result
            = .error (.unsupportedBuildPlaneRefKind r.kind) ∧
        (resolveForBuild w ttl cache now ns proj).calls
            = [.getProject ns proj]))) ∧
    ((r.kind = "ObservabilityPlane" →
        (getObservabilityPlaneUrls w ns r).2
          = [.getObservabilityPlane ns r.name]) ∧
     (r.kind = "ClusterObservabilityPlane" →
        (getObservabilityPlaneUrls w ns r).2
          = [.getClusterObservabilityPlane r.name]) ∧
     (r.kind ≠ "ObservabilityPlane" → r.kind ≠ "ClusterObservabilityPlane" →
        (getObservabilityPlaneUrls w ns r).1
          = .error (.unsupportedObservabilityPlaneRefKind r.kind) ∧
        (getObservabilityPlaneUrls w ns r).2 = [])) := by
  refine ⟨?_, ?_, ?_, ?_, ?_⟩
  · intro hmiss he hr
    rw [resolveForEnvironment_missPath w ttl cache now ns env hmiss]
    exact envKindDispatchAux w ttl _ now ns env e r he hr
  · intro hmiss hp hr
    rw [resolveForBuild_missPath w ttl cache now ns proj hmiss]
    exact buildKindDispatchAux w ttl _ now ns proj p r hp hr
  · intro h1
    exact getObservabilityPlaneUrls_calls_of_nsKind w ns r h1
  · intro h1
    exact getObservabilityPlaneUrls_calls_of_clusterKind w ns r h1
  · intro h1 h2
    rw [getObservabilityPlaneUrls_unsupported w ns r h1 h2]
    exact ⟨rfl, rfl⟩

/-- Claim C3: when the plane resource is found but declares no
`observabilityPlaneRef`, the terminal reference defaults to
`ObservabilityPlane("default")` if the plane was reached through the
namespace-scoped kind — whether named by an explicit reference or by the
implicit default name when no reference is declared — and to
`ClusterObservabilityPlane("default")` if the plane reference itself was
cluster-scoped, including the fallback-reached `ClusterBuildPlane` — visible
as the terminal lookup the resolver performs. -/
theorem claim_C3_default_terminal_ref (w : World) (ttl : Nat) (cache : Cache)
    (now : Nat) (ns env proj : String) (e : Environment) (p : Project)
    (r : PlaneRef) :
    ((getFromCache cache now (envCacheKey ns env)).1 = none →
     w.environments ns env = .ok e → e.dataPlaneRef = some r →
     r.kind = "DataPlane" → w.dataplanes ns r.name = .ok ⟨none⟩ →
      (resolveForEnvironment w ttl cache now ns env).calls
        = [.getEnvironment ns env, .getDataPlane ns r.name,
           .getObservabilityPlane ns DEFAULT_PLANE_NAME]) ∧
    ((getFromCache cache now (envCacheKey ns env)).1 = none →
     w.environments ns env = .ok e → e.dataPlaneRef = none →
     w.dataplanes ns DEFAULT_PLANE_NAME = .ok ⟨none⟩ →
      (resolveForEnvironment w ttl cache now ns env).calls
        = [.getEnvironment ns env, .getDataPlane ns DEFAULT_PLANE_NAME,
           .getObservabilityPlane ns DEFAULT_PLANE_NAME]) ∧
    ((getFromCache cache now (buildCacheKey ns proj)).1 = none →
     w.projects ns proj = .ok p → p.buildPlaneRef = none →
     w.buildplanes ns DEFAULT_PLANE_NAME = .ok ⟨none⟩ →
      (resolveForBuild w ttl cache now ns proj).calls
        = [.getProject ns proj, .getBuildPlane ns DEFAULT_PLANE_NAME,
           .getObservabilityPlane ns DEFAULT_PLANE_NAME]) ∧
    ((getFromCache cache now (buildCacheKey ns proj)).1 = none →
     w.projects ns proj = .ok p → p.buildPlaneRef = none →
     w.buildplanes ns DEFAULT_PLANE_NAME = .err 404 →
     w.clusterbuildplanes DEFAULT_PLANE_NAME = .ok ⟨none⟩ →
      (resolveForBuild w ttl cache now ns proj).calls
        = [.getProject ns proj, .getBuildPlane ns DEFAULT_PLANE_NAME,
           .getClusterBuildPlane DEFAULT_PLANE_NAME,
           .getClusterObservabilityPlane DEFAULT_PLANE_NAME]) ∧
    ((getFromCache cache now (envCacheKey ns env)).1 = none →
     w.environments ns env = .ok e → e.dataPlaneRef = some r →
     r.kind = "ClusterDataPlane" → w.clusterdataplanes r.name = .ok ⟨none⟩ →
      (resolveForEnvironment w ttl cache now ns env).calls
        = [.getEnvironment ns env, .getClusterDataPlane r.name,
           .getClusterObservabilityPlane DEFAULT_PLANE_NAME]) ∧
    ((getFromCache cache now (buildCacheKey ns proj)).1 = none →
     w.projects ns proj = .ok p → p.buildPlaneRef = some r →
     r.kind = "BuildPlane" → w.buildplanes ns r.name = .ok ⟨none⟩ →
      (resolveForBuild w ttl cache now ns proj).calls
        = [.getProject ns proj, .getBuildPlane ns r.name,
           .getObservabilityPlane ns DEFAULT_PLANE_NAME]) ∧
    ((getFromCache cache now (buildCacheKey ns proj)).1 = none →
     w.projects ns proj = .ok p → p.buildPlaneRef = some r →
     r.kind = "ClusterBuildPlane" → w.clusterbuildplanes r.name = .ok ⟨none⟩ →
      (resolveForBuild w ttl cache now ns proj).calls
        = [.getProject ns proj, .getClusterBuildPlane r.name,
           .getClusterObservabilityPlane DEFAULT_PLANE_NAME]) := by
  have hobsNs := getObservabilityPlaneUrls_calls_of_nsKind w ns
    ⟨"ObservabilityPlane", DEFAULT_PLANE_NAME⟩ rfl
  have hobsCl := getObservabilityPlaneUrls_calls_of_clusterKind w ns
    ⟨"ClusterObservabilityPlane", DEFAULT_PLANE_NAME⟩ rfl
  refine ⟨?_, ?_, ?_, ?_, ?_, ?_, ?_⟩
  · intro hmiss he hr hk hd
    rw [resolveForEnvironment_missPath w ttl cache now ns env hmiss]
    simp [resolveForEnvironmentMiss, he, hr, hk, resolveEnvViaDataPlane, hd,
      finishWithObsPlane_calls, hobsNs]
  · intro hmiss he hr hd
    rw [resolveForEnvironment_missPath w ttl cache now ns env hmiss]
    simp [resolveForEnvironmentMiss, he, hr, resolveEnvViaDataPlane, hd,
      finishWithObsPlane_calls, hobsNs]
  · intro hmiss hp hr hb
    rw [resolveForBuild_missPath w ttl cache now ns proj hmiss]
    simp [resolveForBuildMiss, hp, hr, resolveBuildViaBuildPlane, hb,
      finishWithObsPlane_calls, hobsNs]
  · intro hmiss hp hr hb hcb
    rw [resolveForBuild_missPath w ttl cache now ns proj hmiss]
    simp [resolveForBuildMiss, hp, hr, resolveBuildViaBuildPlane, hb,
      prependCalls, resolveForBuildViaClusterBuildPlane, hcb,
      finishWithObsPlane_calls, hobsCl]
  · intro hmiss he hr hk hd
    rw [resolveForEnvironment_missPath w ttl cache now ns env hmiss]
    simp [resolveForEnvironmentMiss, he, hr, hk,
      resolveEnvViaClusterDataPlane, hd, finishWithObsPlane_calls, hobsCl]
  · intro hmiss hp hr hk hb
    rw [resolveForBuild_missPath w ttl cache now ns proj hmiss]
    simp [resolveForBuildMiss, hp, hr, hk, resolveBuildViaBuildPlane, hb,
      finishWithObsPlane_calls, hobsNs]
  · intro hmiss hp hr hk hb
    rw [resolveForBuild_missPath w ttl cache now ns proj hmiss]
    simp [resolveForBuildMiss, hp, hr, hk, prependCalls,
      resolveForBuildViaClusterBuildPlane, hb, finishWithObsPlane_calls,
      hobsCl]

/-- Claim C9: when the terminal hop is reached through a cluster-scoped plane
whose `observabilityPlaneRef` has kind `ObservabilityPlane`, the terminal
lookup is performed in the caller's original namespace argument — every
namespace-scoped terminal lookup in the trace carries that namespace. -/
theorem claim_C9_original_namespace (w : World) (ttl : Nat) (cache : Cache)
    (now : Nat) (ns env proj : String) (e : Environment) (p : Project)
    (r q : PlaneRef) (cdp cbp : Plane) :
    ((getFromCache cache now (envCacheKey ns env)).1 = none →
     w.environments ns env = .ok e → e.dataPlaneRef = some r →
     r.kind = "ClusterDataPlane" → w.clusterdataplanes r.name = .ok cdp →
     cdp.observabilityPlaneRef = some q → q.kind = "ObservabilityPlane" →
      .getObservabilityPlane ns q.name
          ∈ (resolveForEnvironment w ttl cache now ns env).calls ∧
      ∀ ns' n, .getObservabilityPlane ns' n
          ∈ (resolveForEnvironment w ttl cache now ns env).calls → ns' = ns) ∧
    ((getFromCache cache now (buildCacheKey ns proj)).1 = none →
     w.projects ns proj = .ok p → p.buildPlaneRef = some r →
     r.kind = "ClusterBuildPlane" → w.clusterbuildplanes r.name = .ok cbp →
     cbp.observabilityPlaneRef = some q → q.kind = "ObservabilityPlane" →
      .getObservabilityPlane ns q.name
          ∈ (resolveForBuild w ttl cache now ns proj).calls ∧
      ∀ ns' n, .getObservabilityPlane ns' n
          ∈ (resolveForBuild w ttl cache now ns proj).calls → ns' = ns) ∧
    ((getFromCache cache now (buildCacheKey ns proj)).1 = none →
     w.projects ns proj = .ok p → p.buildPlaneRef = none →
     w.buildplanes ns DEFAULT_PLANE_NAME = .err 404 →
     w.clusterbuildplanes DEFAULT_PLANE_NAME = .ok cbp →
     cbp.observabilityPlaneRef = some q → q.kind = "ObservabilityPlane" →
      .getObservabilityPlane ns q.name
          ∈ (resolveForBuild w ttl cache now ns proj).calls ∧
      ∀ ns' n, .getObservabilityPlane ns' n
          ∈ (resolveForBuild w ttl cache now ns proj).calls → ns' = ns) := by
  refine ⟨?_, ?_, ?_⟩
  · intro hmiss he hr hk hcd hq hqk
    rw [resolveForEnvironment_missPath w ttl cache now ns env hmiss]
    have hobs := getObservabilityPlaneUrls_calls_of_nsKind w ns q hqk
    have hcalls : (resolveForEnvironmentMiss w ttl
        (getFromCache cache now (envCacheKey ns env)).2 now ns env).calls
        = [LookupCall.getEnvironment ns env, .getClusterDataPlane r.name,
           .getObservabilityPlane ns q.name] := by
      simp [resolveForEnvironmentMiss, he, hr, hk,
        resolveEnvViaClusterDataPlane, hcd, hq, finishWithObsPlane_calls, hobs]
    rw [hcalls]
    refine ⟨by simp, ?_⟩
    intro ns' n hn
    simp at hn
    rcases hn with ⟨h1, _⟩
    exact h1
  · intro hmiss hp hr hk hcb hq hqk
    rw [resolveForBuild_missPath w ttl cache now ns proj hmiss]
    have hobs := getObservabilityPlaneUrls_calls_of_nsKind w ns q hqk
    have hcalls : (resolveForBuildMiss w ttl
        (getFromCache cache now (buildCacheKey ns proj)).2 now ns proj).calls
        = [LookupCall.getProject ns proj, .getClusterBuildPlane r.name,
           .getObservabilityPlane ns q.name] := by
      simp [resolveForBuildMiss, hp, hr, hk, prependCalls,
        resolveForBuildViaClusterBuildPlane, hcb, hq,
        finishWithObsPlane_calls, hobs]
    rw [hcalls]
    refine ⟨by simp, ?_⟩
    intro ns' n hn
    simp at hn
    rcases hn with ⟨h1, _⟩
    exact h1
  · intro hmiss hp hr hb hcb hq hqk
    rw [resolveForBuild_missPath w ttl cache now ns proj hmiss]
    have hobs := getObservabilityPlaneUrls_calls_of_nsKind w ns q hqk
    have hcalls : (resolveForBuildMiss w ttl
        (getFromCache cache now (buildCacheKey ns proj)).2 now ns proj).calls
        = [LookupCall.getProject ns proj,
           .getBuildPlane ns DEFAULT_PLANE_NAME,
           .getClusterBuildPlane DEFAULT_PLANE_NAME,
           .getObservabilityPlane ns q.name] := by
      simp [resolveForBuildMiss, hp, hr, resolveBuildViaBuildPlane, hb,
        prependCalls, resolveForBuildViaClusterBuildPlane, hcb, hq,
        finishWithObsPlane_calls, hobs]
    rw [hcalls]
    refine ⟨by simp, ?_⟩
    intro ns' n hn
    simp at hn
    rcases hn with ⟨h1, _⟩
    exact h1

/-- Claim C8: a terminal observability plane whose `observerURL` and
`rcaAgentURL` are both absent yields a successful result with both fields
absent, never an error — for the namespace-scoped and the cluster-scoped
terminal kind alike. -/
theorem claim_C8_not_configured (w : World) (ns : String) (ref : PlaneRef) :
    (ref.kind = "ObservabilityPlane" →
      w.observabilityplanes ns ref.name = .ok ⟨none, none⟩ →
      (getObservabilityPlaneUrls w ns ref).1
        = .ok ⟨(none : Option String), (none : Option String)⟩) ∧
    (ref.kind = "ClusterObservabilityPlane" →
      w.clusterobservabilityplanes ref.name = .ok ⟨none, none⟩ →
      (getObservabilityPlaneUrls w ns ref).1
        = .ok ⟨(none : Option String), (none : Option String)⟩) := by
  constructor
  · intro h1 h2
    simp [getObservabilityPlaneUrls, h1, h2]
  · intro h1 h2
    simp [getObservabilityPlaneUrls, h1, h2]

/-- Claim C1: with no declared `buildPlaneRef` and the implicit-default
BuildPlane lookup returning 404, the resolver retries exactly once against
`ClusterBuildPlane("default")` before failing; an explicit `buildPlaneRef`
whose target lookup returns 404 is a hard failure with no cluster fallback. -/
theorem claim_C1_cluster_fallback (w : World) (ttl : Nat) (cache : Cache)
    (now : Nat) (ns proj : String) (p : Project) (r : PlaneRef) (s' : Nat) :
    ((getFromCache cache now (buildCacheKey ns proj)).1 = none →
     w.projects ns proj = .ok p → p.buildPlaneRef = none →
     w.buildplanes ns DEFAULT_PLANE_NAME = .err 404 →
     w.clusterbuildplanes DEFAULT_PLANE_NAME = .err s' →
      (resolveForBuild w ttl cache now ns proj).result
        = .error (.clusterBuildPlaneLookupFailed DEFAULT_PLANE_NAME s') ∧
      (resolveForBuild w ttl cache now ns proj).calls
        = [.getProject ns proj, .getBuildPlane ns DEFAULT_PLANE_NAME,
           .getClusterBuildPlane DEFAULT_PLANE_NAME]) ∧
    ((getFromCache cache now (buildCacheKey ns proj)).1 = none →
     w.projects ns proj = .ok p → p.buildPlaneRef = some r →
     r.kind = "BuildPlane" → w.buildplanes ns r.name = .err 404 →
      (resolveForBuild w ttl cache now ns proj).result
        = .error (.buildPlaneLookupFailed r.name 404) ∧
      ∀ n, .getClusterBuildPlane n
        ∉ (resolveForBuild w ttl cache now ns proj).calls) ∧
    ((getFromCache cache now (buildCacheKey ns proj)).1 = none →
     w.projects ns proj = .ok p → p.buildPlaneRef = some r →
     r.kind = "ClusterBuildPlane" → w.clusterbuildplanes r.name = .err 404 →
      (resolveForBuild w ttl cache now ns proj).result
        = .error (.clusterBuildPlaneLookupFailed r.name 404) ∧
      (resolveForBuild w ttl cache now ns proj).calls
        = [.getProject ns proj, .getClusterBuildPlane r.name]) := by
  refine ⟨?_, ?_, ?_⟩
  · intro hmiss hp hr hb hcb
    rw [resolveForBuild_missPath w ttl cache now ns proj hmiss]
    constructor <;>
      simp [resolveForBuildMiss, hp, hr, resolveBuildViaBuildPlane, hb,
        prependCalls, resolveForBuildViaClusterBuildPlane, hcb]
  · intro hmiss hp hr hk hb
    rw [resolveForBuild_missPath w ttl cache now ns proj hmiss]
    constructor
    · simp [resolveForBuildMiss, hp, hr, hk, resolveBuildViaBuildPlane, hb]
    · intro n
      simp [resolveForBuildMiss, hp, hr, hk, resolveBuildViaBuildPlane, hb]
  · intro hmiss hp hr hk hcb
    rw [resolveForBuild_missPath w ttl cache now ns proj hmiss]
    constructor <;>
      simp [resolveForBuildMiss, hp, hr, hk, prependCalls,
        resolveForBuildViaClusterBuildPlane, hcb]

/-- Claim C10: the cluster fallback of `resolveForBuild` triggers only when
the implicit-default BuildPlane lookup fails with status exactly 404; any
other failing status on that lookup fails immediately with no
ClusterBuildPlane lookup. -/
theorem claim_C10_fallback_only_404 (w : World) (ttl : Nat) (cache : Cache)
    (now : Nat) (ns proj : String) (p : Project) (s : Nat)
    (hmiss : (getFromCache cache now (buildCacheKey ns proj)).1 = none)
    (hp : w.projects ns proj = .ok p) (hr : p.buildPlaneRef = none)
    (hb : w.buildplanes ns DEFAULT_PLANE_NAME = .err s) :
    (s = 404 →
      .getClusterBuildPlane DEFAULT_PLANE_NAME
        ∈ (resolveForBuild w ttl cache now ns proj).calls) ∧
    (s ≠ 404 →
      (resolveForBuild w ttl cache now ns proj).result
        = .error (.buildPlaneLookupFailed DEFAULT_PLANE_NAME s) ∧
      ∀ n, .getClusterBuildPlane n
        ∉ (resolveForBuild w ttl cache now ns proj).calls) := by
  rw [resolveForBuild_missPath w ttl cache now ns proj hmiss]
  constructor
  · intro hs
    obtain ⟨tail, ht, _⟩ := resolveForBuildViaClusterBuildPlane_calls w ttl
      (getFromCache cache now (buildCacheKey ns proj)).2 now ns
      DEFAULT_PLANE_NAME (buildCacheKey ns proj)
    simp [resolveForBuildMiss, hp, hr, resolveBuildViaBuildPlane, hb, hs,
      prependCalls, ht]
  · intro hs
    constructor
    · simp [resolveForBuildMiss, hp, hr, resolveBuildViaBuildPlane, hb, hs]
    · intro n
      simp [resolveForBuildMiss, hp, hr, resolveBuildViaBuildPlane, hb, hs]

/-- Claim C4: with the backing resource set unchanged, if at the time of the
second call the cache still holds a live entry for the key (the TTL has not
elapsed), the second call returns a result identical to the first call's and
performs zero lookup calls — for both resolution operations. -/
theorem claim_C4_cached_idempotence (w : World) (ttl : Nat) (cache : Cache)
    (now now2 : Nat) (ns name : String) :
    (((getFromCache (resolveForEnvironment w ttl cache now ns name).cache now2
        (envCacheKey ns name)).1).isSome = true →
      (resolveForEnvironment w ttl
          (resolveForEnvironment w ttl cache now ns name).cache now2 ns name).result
        = (resolveForEnvironment w ttl cache now ns name).result ∧
      (resolveForEnvironment w ttl
          (resolveForEnvironment w ttl cache now ns name).cache now2 ns name).calls
        = []) ∧
    (((getFromCache (resolveForBuild w ttl cache now ns name).cache now2
        (buildCacheKey ns name)).1).isSome = true →
      (resolveForBuild w ttl
          (resolveForBuild w ttl cache now ns name).cache now2 ns name).result
        = (resolveForBuild w ttl cache now ns name).result ∧
      (resolveForBuild w ttl
          (resolveForBuild w ttl cache now ns name).cache now2 ns name).calls
        = []) := by
  constructor
  · intro h
    obtain ⟨r, hr⟩ := Option.isSome_iff_exists.mp h
    obtain ⟨hres2, _, hcalls2⟩ := resolveForEnvironment_hit_components w ttl
      (resolveForEnvironment w ttl cache now ns name).cache now2 ns name r hr
    refine ⟨?_, hcalls2⟩
    rw [hres2]
    cases hfirst : (getFromCache cache now (envCacheKey ns name)).1 with
    | some r1 =>
      obtain ⟨e, he, hlt, hre, hsnd⟩ :=
        getFromCache_fst_some cache now (envCacheKey ns name) r1 hfirst
      obtain ⟨hres1, hcache1, _⟩ :=
        resolveForEnvironment_hit_components w ttl cache now ns name r1 hfirst
      rw [hres1]
      rw [hcache1, hsnd] at hr
      obtain ⟨e2, he2, hlt2, hre2, _⟩ :=
        getFromCache_fst_some cache now2 (envCacheKey ns name) r hr
      rw [he] at he2
      cases Option.some.inj he2
      rw [hre, hre2]
    | none =>
      obtain ⟨hres1, hcache1, _⟩ :=
        resolveForEnvironment_miss_components w ttl cache now ns name hfirst
      rcases resolveForEnvironmentMiss_missShape w ttl
          (getFromCache cache now (envCacheKey ns name)).2 now ns name with
        ⟨v, hresM, hcacheM⟩ | ⟨errv, hresM, hcacheM⟩
      · rw [hres1, hresM]
        rw [hcache1, hcacheM] at hr
        obtain ⟨e2, he2, hlt2, hre2, _⟩ := getFromCache_fst_some _ now2
          (envCacheKey ns name) r hr
        rw [putInCache_same] at he2
        cases Option.some.inj he2
        rw [hre2]
      · exfalso
        rw [hcache1, hcacheM] at hr
        have hnone := getFromCache_miss_snd_key cache now (envCacheKey ns name)
          hfirst
        obtain ⟨e2, he2, _, _, _⟩ := getFromCache_fst_some _ now2
          (envCacheKey ns name) r hr
        rw [hnone] at he2
        exact Option.noConfusion he2
  · intro h
    obtain ⟨r, hr⟩ := Option.isSome_iff_exists.mp h
    obtain ⟨hres2, _, hcalls2⟩ := resolveForBuild_hit_components w ttl
      (resolveForBuild w ttl cache now ns name).cache now2 ns name r hr
    refine ⟨?_, hcalls2⟩
    rw [hres2]
    cases hfirst : (getFromCache cache now (buildCacheKey ns name)).1 with
    | some r1 =>
      obtain ⟨e, he, hlt, hre, hsnd⟩ :=
        getFromCache_fst_some cache now (buildCacheKey ns name) r1 hfirst
      obtain ⟨hres1, hcache1, _⟩ :=
        resolveForBuild_hit_components w ttl cache now ns name r1 hfirst
      rw [hres1]
      rw [hcache1, hsnd] at hr
      obtain ⟨e2, he2, hlt2, hre2, _⟩ :=
        getFromCache_fst_some cache now2 (buildCacheKey ns name) r hr
      rw [he] at he2
      cases Option.some.inj he2
      rw [hre, hre2]
    | none =>
      obtain ⟨hres1, hcache1, _⟩ :=
        resolveForBuild_miss_components w ttl cache now ns name hfirst
      rcases resolveForBuildMiss_missShape w ttl
          (getFromCache cache now (buildCacheKey ns name)).2 now ns name with
        ⟨v, hresM, hcacheM⟩ | ⟨errv, hresM, hcacheM⟩
      · rw [hres1, hresM]
        rw [hcache1, hcacheM] at hr
        obtain ⟨e2, he2, hlt2, hre2, _⟩ := getFromCache_fst_some _ now2
          (buildCacheKey ns name) r hr
        rw [putInCache_same] at he2
        cases Option.some.inj he2
        rw [hre2]
      · exfalso
        rw [hcache1, hcacheM] at hr
        have hnone := getFromCache_miss_snd_key cache now (buildCacheKey ns name)
          hfirst
        obtain ⟨e2, he2, _, _, _⟩ := getFromCache_fst_some _ now2
          (buildCacheKey ns name) r hr
        rw [hnone] at he2
        exact Option.noConfusion he2

/-- Claim C5 counterexample: a resolution that fails at the first hop does
change the cache map — the call evicts the expired entry stored under its
key, so "the cache is left unchanged" is false as stated. -/
theorem claim_C5_counterexample :
    (resolveForEnvironment wFailEnv 1000 cacheExpired 5 "o" "dev").result
      = .error (.environmentLookupFailed "dev" 500) ∧
    (resolveForEnvironment wFailEnv 1000 cacheExpired 5 "o" "dev").cache
      (envCacheKey "o" "dev") = none ∧
    cacheExpired (envCacheKey "o" "dev") ≠ none := by
  refine ⟨rfl, rfl, ?_⟩
  intro h
  simp [cacheExpired] at h

/-- Claim C5 (amended): a failed resolution never stores a result: after a
failure the cache holds no entry at the resolution key (the only possible
change is the eviction of an already-expired entry there), every other key
is untouched, and a subsequent call with the same key misses the cache and
walks the chain again, starting with the root lookup. -/
theorem claim_C5_nothing_cached_on_failure (w : World) (ttl : Nat)
    (cache : Cache) (now now2 : Nat) (ns name : String) :
    (∀ e, (resolveForEnvironment w ttl cache now ns name).result = .error e →
      (resolveForEnvironment w ttl cache now ns name).cache
        (envCacheKey ns name) = none ∧
      (∀ k, k ≠ envCacheKey ns name →
        (resolveForEnvironment w ttl cache now ns name).cache k = cache k) ∧
      (resolveForEnvironment w ttl
          (resolveForEnvironment w ttl cache now ns name).cache now2 ns name).calls.head?
        = some (.getEnvironment ns name)) ∧
    (∀ e, (resolveForBuild w ttl cache now ns name).result = .error e →
      (resolveForBuild w ttl cache now ns name).cache
        (buildCacheKey ns name) = none ∧
      (∀ k, k ≠ buildCacheKey ns name →
        (resolveForBuild w ttl cache now ns name).cache k = cache k) ∧
      (resolveForBuild w ttl
          (resolveForBuild w ttl cache now ns name).cache now2 ns name).calls.head?
        = some (.getProject ns name)) := by
  constructor
  · intro e herr
    cases hfirst : (getFromCache cache now (envCacheKey ns name)).1 with
    | some r1 =>
      exfalso
      obtain ⟨hres1, _, _⟩ :=
        resolveForEnvironment_hit_components w ttl cache now ns name r1 hfirst
      rw [hres1] at herr
      exact Except.noConfusion herr
    | none =>
      obtain ⟨hres1, hcache1, _⟩ :=
        resolveForEnvironment_miss_components w ttl cache now ns name hfirst
      rcases resolveForEnvironmentMiss_missShape w ttl
          (getFromCache cache now (envCacheKey ns name)).2 now ns name with
        ⟨v, hresM, hcacheM⟩ | ⟨errv, hresM, hcacheM⟩
      · exfalso
        rw [hres1, hresM] at herr
        exact Except.noConfusion herr
      · have hckey : (resolveForEnvironment w ttl cache now ns name).cache
            (envCacheKey ns name) = none := by
          rw [hcache1, hcacheM]
          exact getFromCache_miss_snd_key cache now (envCacheKey ns name) hfirst
        refine ⟨hckey, ?_, ?_⟩
        · intro k hk
          rw [hcache1, hcacheM]
          exact getFromCache_snd_ne cache now (envCacheKey ns name) k hk
        · have h2miss : (getFromCache
              (resolveForEnvironment w ttl cache now ns name).cache now2
              (envCacheKey ns name)).1 = none := by
            rw [getFromCache_absent
              (resolveForEnvironment w ttl cache now ns name).cache now2
              (envCacheKey ns name) hckey]
          obtain ⟨_, _, hcalls2⟩ := resolveForEnvironment_miss_components w ttl
            (resolveForEnvironment w ttl cache now ns name).cache now2 ns name
            h2miss
          rw [hcalls2]
          obtain ⟨tail, ht, _⟩ := resolveForEnvironmentMiss_calls w ttl
            (getFromCache (resolveForEnvironment w ttl cache now ns name).cache
              now2 (envCacheKey ns name)).2 now2 ns name
          rw [ht]
          rfl
  · intro e herr
    cases hfirst : (getFromCache cache now (buildCacheKey ns name)).1 with
    | some r1 =>
      exfalso
      obtain ⟨hres1, _, _⟩ :=
        resolveForBuild_hit_components w ttl cache now ns name r1 hfirst
      rw [hres1] at herr
      exact Except.noConfusion herr
    | none =>
      obtain ⟨hres1, hcache1, _⟩ :=
        resolveForBuild_miss_components w ttl cache now ns name hfirst
      rcases resolveForBuildMiss_missShape w ttl
          (getFromCache cache now (buildCacheKey ns name)).2 now ns name with
        ⟨v, hresM, hcacheM⟩ | ⟨errv, hresM, hcacheM⟩
      · exfalso
        rw [hres1, hresM] at herr
        exact Except.noConfusion herr
      · have hckey : (resolveForBuild w ttl cache now ns name).cache
            (buildCacheKey ns name) = none := by
          rw [hcache1, hcacheM]
          exact getFromCache_miss_snd_key cache now (buildCacheKey ns name) hfirst
        refine ⟨hckey, ?_, ?_⟩
        · intro k hk
          rw [hcache1, hcacheM]
          exact getFromCache_snd_ne cache now (buildCacheKey ns name) k hk
        · have h2miss : (getFromCache
              (resolveForBuild w ttl cache now ns name).cache now2
              (buildCacheKey ns name)).1 = none := by
            rw [getFromCache_absent
              (resolveForBuild w ttl cache now ns name).cache now2
              (buildCacheKey ns name) hckey]
          obtain ⟨_, _, hcalls2⟩ := resolveForBuild_miss_components w ttl
            (resolveForBuild w ttl cache now ns name).cache now2 ns name h2miss
          rw [hcalls2]
          obtain ⟨tail, ht, _⟩ := resolveForBuildMiss_calls w ttl
            (getFromCache (resolveForBuild w ttl cache now ns name).cache
              now2 (buildCacheKey ns name)).2 now2 ns name
          rw [ht]
          rfl

/-- Claim C7 counterexample: on the documented cluster fallback path a
cache-miss `resolveForBuild` performs four lookups (project, implicit
default BuildPlane, ClusterBuildPlane, terminal observability plane), so
"between 1 and 3 lookup calls" is false as stated. -/
theorem claim_C7_counterexample :
    (resolveForBuild wFallback 300000 emptyCache 0 "o" "shop").calls.length
      = 4 ∧
    ¬ ((resolveForBuild wFallback 300000 emptyCache 0 "o" "shop").calls.length
      ≤ 3) := by
  have h4 : (resolveForBuild wFallback 300000 emptyCache 0 "o" "shop").calls.length
      = 4 := rfl
  exact ⟨h4, by rw [h4]; omega⟩

/-- Claim C7 (amended): a cache-miss resolution performs between 1 and 3
lookups for environment resolution and between 1 and 4 for build resolution
(4 arising only via the documented cluster-build-plane fallback). -/
theorem claim_C7_lookup_bounds (w : World) (ttl : Nat) (cache : Cache)
    (now : Nat) (ns name : String) :
    ((getFromCache cache now (envCacheKey ns name)).1 = none →
      1 ≤ (resolveForEnvironment w ttl cache now ns name).calls.length ∧
      (resolveForEnvironment w ttl cache now ns name).calls.length ≤ 3) ∧
    ((getFromCache cache now (buildCacheKey ns name)).1 = none →
      1 ≤ (resolveForBuild w ttl cache now ns name).calls.length ∧
      (resolveForBuild w ttl cache now ns name).calls.length ≤ 4) := by
  constructor
  · intro hmiss
    rw [resolveForEnvironment_missPath w ttl cache now ns name hmiss]
    obtain ⟨tail, ht, hl⟩ := resolveForEnvironmentMiss_calls w ttl
      (getFromCache cache now (envCacheKey ns name)).2 now ns name
    rw [ht]
    simp
    omega
  · intro hmiss
    rw [resolveForBuild_missPath w ttl cache now ns name hmiss]
    obtain ⟨tail, ht, hl⟩ := resolveForBuildMiss_calls w ttl
      (getFromCache cache now (buildCacheKey ns name)).2 now ns name
    rw [ht]
    simp
    omega

/-! ### Concrete instantiations of the claim theorems -/

theorem claim_C1_witness :
    (getFromCache emptyCache 0 (buildCacheKey "o" "p")).1 = none ∧
    wC1.projects "o" "p" = .ok ⟨none⟩ ∧
    wC1.buildplanes "o" DEFAULT_PLANE_NAME = .err 404 ∧
    wC1.clusterbuildplanes DEFAULT_PLANE_NAME = .err 404 ∧
    (resolveForBuild wC1 1000 emptyCache 0 "o" "p").result
      = .error (.clusterBuildPlaneLookupFailed DEFAULT_PLANE_NAME 404) ∧
    (resolveForBuild wC1 1000 emptyCache 0 "o" "p").calls
      = [.getProject "o" "p", .getBuildPlane "o" DEFAULT_PLANE_NAME,
         .getClusterBuildPlane DEFAULT_PLANE_NAME] ∧
    wC1.projects "o" "q" = .ok ⟨some ⟨"BuildPlane", "bp"⟩⟩ ∧
    wC1.buildplanes "o" "bp" = .err 404 ∧
    (resolveForBuild wC1 1000 emptyCache 0 "o" "q").result
      = .error (.buildPlaneLookupFailed "bp" 404) ∧
    LookupCall.getClusterBuildPlane "default"
      ∉ (resolveForBuild wC1 1000 emptyCache 0 "o" "q").calls := by
  refine ⟨rfl, rfl, rfl, rfl, ?_, ?_, rfl, rfl, ?_, ?_⟩
  · exact ((claim_C1_cluster_fallback wC1 1000 emptyCache 0 "o" "p" ⟨none⟩
      ⟨"BuildPlane", "bp"⟩ 404).1 rfl rfl rfl rfl rfl).1
  · exact ((claim_C1_cluster_fallback wC1 1000 emptyCache 0 "o" "p" ⟨none⟩
      ⟨"BuildPlane", "bp"⟩ 404).1 rfl rfl rfl rfl rfl).2
  · exact ((claim_C1_cluster_fallback wC1 1000 emptyCache 0 "o" "q"
      ⟨some ⟨"BuildPlane", "bp"⟩⟩ ⟨"BuildPlane", "bp"⟩ 404).2.1
      rfl rfl rfl rfl rfl).1
  · exact ((claim_C1_cluster_fallback wC1 1000 emptyCache 0 "o" "q"
      ⟨some ⟨"BuildPlane", "bp"⟩⟩ ⟨"BuildPlane", "bp"⟩ 404).2.1
      rfl rfl rfl rfl rfl).2 "default"

theorem claim_C2_witness :
    (getFromCache emptyCache 0 (envCacheKey "o" "dev")).1 = none ∧
    wKinds.environments "o" "dev" = .ok ⟨some ⟨"FooPlane", "x"⟩⟩ ∧
    (resolveForEnvironment wKinds 1000 emptyCache 0 "o" "dev").result
      = .error (.unsupportedDataPlaneRefKind "FooPlane") ∧
    (getFromCache emptyCache 0 (buildCacheKey "o" "shop")).1 = none ∧
    wKinds.projects "o" "shop" = .ok ⟨some ⟨"ClusterBuildPlane", "shared"⟩⟩ ∧
    LookupCall.getClusterBuildPlane "shared"
      ∈ (resolveForBuild wKinds 1000 emptyCache 0 "o" "shop").calls ∧
    LookupCall.getBuildPlane "o" "default"
      ∉ (resolveForBuild wKinds 1000 emptyCache 0 "o" "shop").calls := by
  refine ⟨rfl, rfl, ?_, rfl, rfl, ?_, ?_⟩
  · exact (((claim_C2_kind_dispatch wKinds 1000 emptyCache 0 "o" "dev" "shop"
      ⟨some ⟨"FooPlane", "x"⟩⟩ ⟨some ⟨"ClusterBuildPlane", "shared"⟩⟩
      ⟨"FooPlane", "x"⟩).1 rfl rfl rfl).2.2 (by decide) (by decide)).1
  · exact (((claim_C2_kind_dispatch wKinds 1000 emptyCache 0 "o" "dev" "shop"
      ⟨some ⟨"FooPlane", "x"⟩⟩ ⟨some ⟨"ClusterBuildPlane", "shared"⟩⟩
      ⟨"ClusterBuildPlane", "shared"⟩).2.1 rfl rfl rfl).2.1 rfl).1
  · exact (((claim_C2_kind_dispatch wKinds 1000 emptyCache 0 "o" "dev" "shop"
      ⟨some ⟨"FooPlane", "x"⟩⟩ ⟨some ⟨"ClusterBuildPlane", "shared"⟩⟩
      ⟨"ClusterBuildPlane", "shared"⟩).2.1 rfl rfl rfl).2.1 rfl).2 "o" "default"

theorem claim_C3_witness :
    (getFromCache emptyCache 0 (envCacheKey "o" "dev")).1 = none ∧
    wDefaults.environments "o" "dev" = .ok ⟨some ⟨"DataPlane", "primary"⟩⟩ ∧
    wDefaults.dataplanes "o" "primary" = .ok ⟨none⟩ ∧
    (resolveForEnvironment wDefaults 1000 emptyCache 0 "o" "dev").calls
      = [.getEnvironment "o" "dev", .getDataPlane "o" "primary",
         .getObservabilityPlane "o" DEFAULT_PLANE_NAME] ∧
    wDefaults.environments "n2" "dev2" = .ok ⟨none⟩ ∧
    wDefaults.dataplanes "n2" DEFAULT_PLANE_NAME = .ok ⟨none⟩ ∧
    (resolveForEnvironment wDefaults 1000 emptyCache 0 "n2" "dev2").calls
      = [.getEnvironment "n2" "dev2", .getDataPlane "n2" DEFAULT_PLANE_NAME,
         .getObservabilityPlane "n2" DEFAULT_PLANE_NAME] ∧
    wDefaults.projects "n2" "shop2" = .ok ⟨none⟩ ∧
    wDefaults.buildplanes "n2" DEFAULT_PLANE_NAME = .ok ⟨none⟩ ∧
    (resolveForBuild wDefaults 1000 emptyCache 0 "n2" "shop2").calls
      = [.getProject "n2" "shop2", .getBuildPlane "n2" DEFAULT_PLANE_NAME,
         .getObservabilityPlane "n2" DEFAULT_PLANE_NAME] ∧
    wFallback.projects "o" "shop" = .ok ⟨none⟩ ∧
    wFallback.buildplanes "o" DEFAULT_PLANE_NAME = .err 404 ∧
    wFallback.clusterbuildplanes DEFAULT_PLANE_NAME = .ok ⟨none⟩ ∧
    (resolveForBuild wFallback 1000 emptyCache 0 "o" "shop").calls
      = [.getProject "o" "shop", .getBuildPlane "o" DEFAULT_PLANE_NAME,
         .getClusterBuildPlane DEFAULT_PLANE_NAME,
         .getClusterObservabilityPlane DEFAULT_PLANE_NAME] ∧
    wDefaults.projects "o" "shop" = .ok ⟨some ⟨"ClusterBuildPlane", "shared"⟩⟩ ∧
    wDefaults.clusterbuildplanes "shared" = .ok ⟨none⟩ ∧
    (resolveForBuild wDefaults 1000 emptyCache 0 "o" "shop").calls
      = [.getProject "o" "shop", .getClusterBuildPlane "shared",
         .getClusterObservabilityPlane DEFAULT_PLANE_NAME] := by
  refine ⟨rfl, rfl, rfl, ?_, rfl, rfl, ?_, rfl, rfl, ?_, rfl, rfl, rfl, ?_,
    rfl, rfl, ?_⟩
  · exact (claim_C3_default_terminal_ref wDefaults 1000 emptyCache 0 "o" "dev"
      "shop" ⟨some ⟨"DataPlane", "primary"⟩⟩
      ⟨some ⟨"ClusterBuildPlane", "shared"⟩⟩ ⟨"DataPlane", "primary"⟩).1
      rfl rfl rfl rfl rfl
  · exact (claim_C3_default_terminal_ref wDefaults 1000 emptyCache 0 "n2"
      "dev2" "shop2" ⟨none⟩ ⟨none⟩ ⟨"DataPlane", "primary"⟩).2.1
      rfl rfl rfl rfl
  · exact (claim_C3_default_terminal_ref wDefaults 1000 emptyCache 0 "n2"
      "dev2" "shop2" ⟨none⟩ ⟨none⟩ ⟨"DataPlane", "primary"⟩).2.2.1
      rfl rfl rfl rfl
  · exact (claim_C3_default_terminal_ref wFallback 1000 emptyCache 0 "o" "dev"
      "shop" ⟨none⟩ ⟨none⟩ ⟨"DataPlane", "primary"⟩).2.2.2.1
      rfl rfl rfl rfl rfl
  · exact (claim_C3_default_terminal_ref wDefaults 1000 emptyCache 0 "o" "dev"
      "shop" ⟨some ⟨"DataPlane", "primary"⟩⟩
      ⟨some ⟨"ClusterBuildPlane", "shared"⟩⟩
      ⟨"ClusterBuildPlane", "shared"⟩).2.2.2.2.2.2 rfl rfl rfl rfl rfl

theorem claim_C4_witness :
    ((getFromCache (resolveForEnvironment wHappy 300000 emptyCache 0 "o" "dev").cache
        1000 (envCacheKey "o" "dev")).1).isSome = true ∧
    (resolveForEnvironment wHappy 300000
        (resolveForEnvironment wHappy 300000 emptyCache 0 "o" "dev").cache
        1000 "o" "dev").result
      = (resolveForEnvironment wHappy 300000 emptyCache 0 "o" "dev").result ∧
    (resolveForEnvironment wHappy 300000
        (resolveForEnvironment wHappy 300000 emptyCache 0 "o" "dev").cache
        1000 "o" "dev").calls = [] := by
  have h := (claim_C4_cached_idempotence wHappy 300000 emptyCache 0 1000
    "o" "dev").1 rfl
  exact ⟨rfl, h.1, h.2⟩

theorem claim_C5_witness :
    (resolveForEnvironment wFailEnv 1000 emptyCache 0 "o" "dev").result
      = .error (.environmentLookupFailed "dev" 500) ∧
    (resolveForEnvironment wFailEnv 1000 emptyCache 0 "o" "dev").cache
      (envCacheKey "o" "dev") = none ∧
    (resolveForEnvironment wFailEnv 1000
        (resolveForEnvironment wFailEnv 1000 emptyCache 0 "o" "dev").cache
        5 "o" "dev").calls.head? = some (.getEnvironment "o" "dev") := by
  have h := (claim_C5_nothing_cached_on_failure wFailEnv 1000 emptyCache 0 5
    "o" "dev").1 (.environmentLookupFailed "dev" 500) rfl
  exact ⟨rfl, h.1, h.2.2⟩

theorem claim_C6_witness :
    cacheLive "k1" = some ⟨⟨some "u", none⟩, 10⟩ ∧
    5 < 10 ∧
    getFromCache cacheLive 5 "k1" = (some ⟨some "u", none⟩, cacheLive) ∧
    ¬ (10 < 10) ∧
    (getFromCache cacheLive 10 "k1").1 = none ∧
    (getFromCache cacheLive 10 "k1").2 "k1" = none := by
  refine ⟨rfl, by decide, ?_, by decide, ?_, ?_⟩
  · exact (claim_C6_cache_get cacheLive 5 "k1").1 ⟨⟨some "u", none⟩, 10⟩
      rfl (by decide)
  · exact ((claim_C6_cache_get cacheLive 10 "k1").2.1 ⟨⟨some "u", none⟩, 10⟩
      rfl (by decide)).1
  · exact ((claim_C6_cache_get cacheLive 10 "k1").2.1 ⟨⟨some "u", none⟩, 10⟩
      rfl (by decide)).2.1

theorem claim_C7_witness :
    (getFromCache emptyCache 0 (envCacheKey "o" "dev")).1 = none ∧
    1 ≤ (resolveForEnvironment wHappy 1000 emptyCache 0 "o" "dev").calls.length ∧
    (resolveForEnvironment wHappy 1000 emptyCache 0 "o" "dev").calls.length ≤ 3 ∧
    (getFromCache emptyCache 0 (buildCacheKey "o" "shop")).1 = none ∧
    1 ≤ (resolveForBuild wFallback 1000 emptyCache 0 "o" "shop").calls.length ∧
    (resolveForBuild wFallback 1000 emptyCache 0 "o" "shop").calls.length ≤ 4 := by
  have h1 := (claim_C7_lookup_bounds wHappy 1000 emptyCache 0 "o" "dev").1 rfl
  have h2 := (claim_C7_lookup_bounds wFallback 1000 emptyCache 0 "o" "shop").2 rfl
  exact ⟨rfl, h1.1, h1.2, rfl, h2.1, h2.2⟩

theorem claim_C8_witness :
    (PlaneRef.mk "ObservabilityPlane" "default").kind = "ObservabilityPlane" ∧
    wNotConf.observabilityplanes "o" "default" = .ok ⟨none, none⟩ ∧
    (getObservabilityPlaneUrls wNotConf "o"
      ⟨"ObservabilityPlane", "default"⟩).1
        = .ok ⟨(none : Option String), (none : Option String)⟩ := by
  refine ⟨rfl, rfl, ?_⟩
  exact (claim_C8_not_configured wNotConf "o"
    ⟨"ObservabilityPlane", "default"⟩).1 rfl rfl

theorem claim_C9_witness :
    (getFromCache emptyCache 0 (envCacheKey "o" "dev")).1 = none ∧
    wC9.environments "o" "dev" = .ok ⟨some ⟨"ClusterDataPlane", "cdp"⟩⟩ ∧
    wC9.clusterdataplanes "cdp" = .ok ⟨some ⟨"ObservabilityPlane", "obs"⟩⟩ ∧
    LookupCall.getObservabilityPlane "o" "obs"
      ∈ (resolveForEnvironment wC9 1000 emptyCache 0 "o" "dev").calls := by
  refine ⟨rfl, rfl, rfl, ?_⟩
  exact ((claim_C9_original_namespace wC9 1000 emptyCache 0 "o" "dev" "shop"
    ⟨some ⟨"ClusterDataPlane", "cdp"⟩⟩ ⟨some ⟨"ClusterBuildPlane", "cbp"⟩⟩
    ⟨"ClusterDataPlane", "cdp"⟩ ⟨"ObservabilityPlane", "obs"⟩
    ⟨some ⟨"ObservabilityPlane", "obs"⟩⟩
    ⟨some ⟨"ObservabilityPlane", "obs"⟩⟩).1
    rfl rfl rfl rfl rfl rfl rfl).1

theorem claim_C10_witness :
    (getFromCache emptyCache 0 (buildCacheKey "o" "p")).1 = none ∧
    wC10.projects "o" "p" = .ok ⟨none⟩ ∧
    wC10.buildplanes "o" DEFAULT_PLANE_NAME = .err 500 ∧
    (500 : Nat) ≠ 404 ∧
    (resolveForBuild wC10 1000 emptyCache 0 "o" "p").result
      = .error (.buildPlaneLookupFailed DEFAULT_PLANE_NAME 500) ∧
    LookupCall.getClusterBuildPlane "default"
      ∉ (resolveForBuild wC10 1000 emptyCache 0 "o" "p").calls ∧
    wFallback.buildplanes "o" DEFAULT_PLANE_NAME = .err 404 ∧
    LookupCall.getClusterBuildPlane DEFAULT_PLANE_NAME
      ∈ (resolveForBuild wFallback 1000 emptyCache 0 "o" "shop").calls := by
  have h := claim_C10_fallback_only_404 wC10 1000 emptyCache 0 "o" "p"
    ⟨none⟩ 500 rfl rfl rfl rfl
  have h2 := claim_C10_fallback_only_404 wFallback 1000 emptyCache 0 "o" "shop"
    ⟨none⟩ 404 rfl rfl rfl rfl
  refine ⟨rfl, rfl, rfl, by decide, (h.2 (by decide)).1,
    (h.2 (by decide)).2 "default", rfl, h2.1 rfl⟩

end OCR
